import Mathlib

/-!
Formal model of the 3CB solver's search core, translated from the
repository's Python sources:

* `src/simulator/helpers.py` — creature-stat helpers and the lethality test;
* `src/simulator/tables.py` — transposition and dominance tables;
* `src/simulator/combat.py` and `src/simulator/game_state.py` — the modular
  combat-damage resolver (the version with early game-over returns);
* `src/simulator/phases/upkeep.py` and `src/simulator/phases/draw.py` — the
  automatic upkeep and draw phase transforms;
* `src/simulator/solver.py` — the monolithic minimax/alpha-beta solver with
  its own `GameState`, action generator, combat resolver and turn handler.

Python's mutable state is rendered as explicit state passing: `ns = s.copy()`
becomes a `let`, in-place field writes become functional record updates, and
a loop that rebinds `ns` while iterating over a list captured at loop entry
becomes a fold over that captured list.  Card objects are records of the
fields the engine reads; an attribute that only some card classes define
(Python `hasattr` dispatch) is an `Option` field, and card methods that the
engine calls dynamically (play actions, triggers, `can_block`, signature
state) are supplied through a `Hooks` record, mirroring the card capability
interface the spec calls external.
-/

namespace ThreeCB

/-- Read entry `i` of a two-element Python list rendered as a pair
(`xs[0]` is `.1`, any other index reads `.2`; the engine only ever uses
indices `0` and `1`). -/
def pget {α : Type} (x : α × α) (i : Nat) : α :=
  if i = 0 then x.1 else x.2

/-- Write entry `i` of a two-element Python list rendered as a pair. -/
def pset {α : Type} (x : α × α) (i : Nat) (v : α) : α × α :=
  if i = 0 then (v, x.2) else (x.1, v)

/-- Dictionary lookup on an association list (Python `d[k]` / `k in d`). -/
def lookupA {κ ν : Type} [DecidableEq κ] : List (κ × ν) → κ → Option ν
  | [], _ => none
  | (k, v) :: rest, key => if k = key then some v else lookupA rest key

/-- Dictionary store on an association list (Python `d[k] = v`): overwrite
the existing binding in place, or append a new one. -/
def insertA {κ ν : Type} [DecidableEq κ] : List (κ × ν) → κ → ν → List (κ × ν)
  | [], key, val => [(key, val)]
  | (k, v) :: rest, key, val =>
    if k = key then (key, val) :: rest else (k, v) :: insertA rest key val

/-- In-place update of list entry `i` (Python `lst[i].field = ...` on a list
of objects); out-of-range indices leave the list unchanged. -/
def listModify {α : Type} (l : List α) (i : Nat) (f : α → α) : List α :=
  match l.get? i with
  | some x => l.set i (f x)
  | none => l

/-- Python `set.add` on a set of indices kept as a duplicate-free list in
insertion order. -/
def pushIdx (l : List Nat) (i : Nat) : List Nat :=
  if i ∈ l then l else l ++ [i]

/-- Insertion step for `sortLe`. -/
def insertLe {α : Type} (le : α → α → Bool) (x : α) : List α → List α
  | [] => [x]
  | y :: rest => if le x y then x :: y :: rest else y :: insertLe le x rest

/-- Insertion sort with an explicit comparator, standing in for Python's
`sorted` (any total order gives the order-insensitivity the signatures
need). -/
def sortLe {α : Type} (le : α → α → Bool) : List α → List α
  | [] => []
  | x :: rest => insertLe le x (sortLe le rest)

/-- One element of a card's hashable signature tuple.  `m` stands for the
bound-method object Python's `getattr(c, 'is_creature', False)` yields on
cards whose `is_creature` is a method rather than a data attribute; the
model collapses those objects to one marker. -/
inductive SigAtom : Type
  | s (v : String)
  | b (v : Bool)
  | i (v : Int)
  | m
deriving DecidableEq

/-- Total comparison on signature atoms: by constructor tag, then payload.
Python would compare the underlying values (and raise on mixed types);
any fixed total order serves the sort. -/
def sigAtomLe (a b : SigAtom) : Bool :=
  match a, b with
  | .s x, .s y => decide (x ≤ y)
  | .s _, _ => true
  | .b _, .s _ => false
  | .b x, .b y => !x || y
  | .b _, _ => true
  | .i _, .s _ => false
  | .i _, .b _ => false
  | .i x, .i y => decide (x ≤ y)
  | .i _, .m => true
  | .m, .m => true
  | .m, _ => false

/-- Lexicographic comparison of atom lists (Python tuple comparison). -/
def sigListLe : List SigAtom → List SigAtom → Bool
  | [], _ => true
  | _ :: _, [] => false
  | x :: xs, y :: ys =>
    if x = y then sigListLe xs ys else sigAtomLe x y

/-- Sort a list of per-card signature tuples. -/
def sortSigs (l : List (List SigAtom)) : List (List SigAtom) :=
  sortLe sigListLe l

/-- Sort a list of card names. -/
def sortStrings (l : List String) : List String :=
  sortLe (fun a b => decide (a ≤ b)) l

/-- Lexicographic order on `(String, Bool)` artifact signatures. -/
def artSigLe (a b : String × Bool) : Bool :=
  if a.1 = b.1 then !a.2 || b.2 else decide (a.1 ≤ b.1)

/-- Sort artifact signatures. -/
def sortArtSigs (l : List (String × Bool)) : List (String × Bool) :=
  sortLe artSigLe l

/-- Lexicographic order on blocking-assignment pairs. -/
def natPairLe (a b : Nat × Nat) : Bool :=
  if a.1 = b.1 then decide (a.2 ≤ b.2) else decide (a.1 ≤ b.1)

/-- Sort blocking assignments (Python `sorted(d.items())`). -/
def sortNatPairs (l : List (Nat × Nat)) : List (Nat × Nat) :=
  sortLe natPairLe l

/-- Sort indices in decreasing order (Python `sorted(s, reverse=True)` on
the dead-creature index sets). -/
def sortDesc (l : List Nat) : List Nat :=
  sortLe (fun a b => decide (b ≤ a)) l

/-- `is_lethal_damage` from `src/simulator/helpers.py` (the identical copy in
`src/simulator/solver.py` is shared): damage is lethal when the dealer has
deathtouch and dealt any damage, or when it meets the toughness. -/
def is_lethal_damage (damage toughness : Int) (attacker_has_deathtouch : Bool) : Bool :=
  if attacker_has_deathtouch = true ∧ 0 < damage then true
  else decide (toughness ≤ damage)

/-- The triple scan shared by `check_dominance` in `src/simulator/tables.py`
and the inline dominance check in `minimax` (`src/simulator/solver.py`):
walk the stored `(selfLife, opponentLife, result)` triples in order; a loss
triple at better-or-equal life for the querying player and worse-or-equal
life for the opponent yields `-1`; a win triple at worse-or-equal /
better-or-equal life yields `1`. -/
def dominanceScanList (my_life opp_life : Int) : List (Int × Int × Int) → Option Int
  | [] => none
  | (cached_my, cached_opp, cached_result) :: rest =>
    if my_life ≤ cached_my ∧ cached_opp ≤ opp_life ∧ cached_result = -1 then some (-1)
    else if cached_my ≤ my_life ∧ opp_life ≤ cached_opp ∧ cached_result = 1 then some 1
    else dominanceScanList my_life opp_life rest

/-- `check_dominance` from `src/simulator/tables.py`: look up the board key
and scan its triples; the board key is opaque to the table. -/
def check_dominance {K : Type} [DecidableEq K]
    (dominance : List (K × List (Int × Int × Int)))
    (board_key : K) (life : Int × Int) (player : Nat) : Option Int :=
  match lookupA dominance board_key with
  | none => none
  | some triples =>
    dominanceScanList (pget life player) (pget life (1 - player)) triples

/-- `store_dominance` from `src/simulator/tables.py`: append the triple for
the current life totals under the board key (creating the bucket first). -/
def store_dominance {K : Type} [DecidableEq K]
    (dominance : List (K × List (Int × Int × Int)))
    (board_key : K) (life : Int × Int) (player : Nat) (result : Int) :
    List (K × List (Int × Int × Int)) :=
  match lookupA dominance board_key with
  | none =>
    insertA dominance board_key [(pget life player, pget life (1 - player), result)]
  | some triples =>
    insertA dominance board_key
      (triples ++ [(pget life player, pget life (1 - player), result)])

/-- `lookup_transposition` from `src/simulator/tables.py`: an exact entry is
always usable, a lower bound only against `beta`, an upper bound only
against `alpha`. -/
def lookup_transposition {K : Type} [DecidableEq K]
    (memo : List (K × (Int × String))) (key : K) (alpha beta : Int) : Option Int :=
  match lookupA memo key with
  | none => none
  | some (cached_value, flag) =>
    if flag = "exact" then some cached_value
    else if flag = "lower" ∧ beta ≤ cached_value then some cached_value
    else if flag = "upper" ∧ cached_value ≤ alpha then some cached_value
    else none

/-- `store_transposition` from `src/simulator/tables.py`: classify against the
original window and store; returns the table (the Python returns the flag
and mutates the dict, the model returns both). -/
def store_transposition {K : Type} [DecidableEq K]
    (memo : List (K × (Int × String))) (key : K) (value : Int)
    (original_alpha beta : Int) : List (K × (Int × String)) × String :=
  if value ≤ original_alpha then (insertA memo key (value, "upper"), "upper")
  else if beta ≤ value then (insertA memo key (value, "lower"), "lower")
  else (insertA memo key (value, "exact"), "exact")

namespace Sim

/-- A card of the modular simulator (`src/simulator/game_state.py`,
`src/simulator/combat.py`, `src/simulator/phases/`): the data attributes the
engine reads.  `Option` fields model attributes only some card classes
define (`hasattr` dispatch); plain fields with defaults model attributes
read through `getattr(c, f, default)`. -/
structure Card where
  name : String
  tapped : Bool := false
  attacking : Bool := false
  damage : Int := 0
  power : Option Int := none
  toughness : Option Int := none
  current_power : Option Int := none
  current_toughness : Option Int := none
  eot_power_boost : Int := 0
  eot_toughness_boost : Int := 0
  has_first_strike : Option Bool := none
  has_double_strike : Option Bool := none
  has_deathtouch : Option Bool := none
  keywords : List String := []
deriving DecidableEq

instance : Inhabited Card := ⟨{ name := "" }⟩

/-- The board-only upkeep signature computed by `upkeep`
(`src/simulator/phases/upkeep.py` lines 41-51): per-card signature states of
both battlefields, hand card names, artifact and enchantment signature
states — no life totals, no active player, no turn. -/
structure UpkeepSig where
  p1_bf : List (List SigAtom)
  p2_bf : List (List SigAtom)
  p1_hand : List String
  p2_hand : List String
  p1_art : List (List SigAtom)
  p2_art : List (List SigAtom)
  p1_ench : List (List SigAtom)
  p2_ench : List (List SigAtom)
deriving DecidableEq

/-- The modular `GameState` (`src/simulator/game_state.py`).  The dataclass
under `src/` lacks `library`, `enchantments`, `stale_turns` and
`prev_main_sig`, but the phase handlers under `src/simulator/phases/` read
and write them; those four fields are modelled from the spec (section 3:
per-player ordered library zone, enchantment zone, "a stalemate counter and
previous-board-signature for loop detection"). -/
structure GameState where
  life : Int × Int := (20, 20)
  hands : List Card × List Card := ([], [])
  library : List Card × List Card := ([], [])
  battlefield : List Card × List Card := ([], [])
  artifacts : List Card × List Card := ([], [])
  enchantments : List Card × List Card := ([], [])
  graveyard : List Card × List Card := ([], [])
  active_player : Nat := 0
  phase : String := "main1"
  turn : Int := 1
  land_played_this_turn : Bool := false
  blocking_assignments : List (Nat × Nat) := []
  game_over : Bool := false
  winner : Option Nat := none
  stale_turns : Int := 0
  prev_main_sig : Option UpkeepSig := none
deriving DecidableEq

/-- The card methods the modular engine calls dynamically.  A hook returning
`none` models a card class that does not define the method (`hasattr`
false); `sigState` models the per-class `get_signature_state` override. -/
structure Hooks where
  onDeath : Card → Option (GameState → GameState) := fun _ => none
  onHitPlayer : Card → Option (GameState → GameState) := fun _ => none
  onUpkeep : Card → Option (GameState → GameState) := fun _ => none
  onOpponentUpkeep : Card → Option (GameState → GameState) := fun _ => none
  autoLevel : Card → Option (GameState → GameState) := fun _ => none
  sigState : Card → List SigAtom := fun c => [SigAtom.s c.name, SigAtom.b c.tapped]

/-- `get_creature_power` from `src/simulator/helpers.py`: a `current_power`
property wins over the raw `power` attribute; end-of-turn boosts are added
on top. -/
def get_creature_power (card : Card) : Int :=
  (match card.current_power with
   | some p => p
   | none => card.power.getD 0) + card.eot_power_boost

/-- `get_creature_toughness` from `src/simulator/helpers.py`. -/
def get_creature_toughness (card : Card) : Int :=
  (match card.current_toughness with
   | some t => t
   | none => card.toughness.getD 0) + card.eot_toughness_boost

/-- `has_first_strike` from `src/simulator/helpers.py`: a boolean attribute
wins over membership in the keyword list. -/
def has_first_strike (card : Card) : Bool :=
  match card.has_first_strike with
  | some b => b
  | none => card.keywords.contains "first_strike"

/-- `has_double_strike` from `src/simulator/helpers.py`. -/
def has_double_strike (card : Card) : Bool :=
  match card.has_double_strike with
  | some b => b
  | none => card.keywords.contains "double_strike"

/-- `has_deathtouch` from `src/simulator/helpers.py`. -/
def has_deathtouch (card : Card) : Bool :=
  match card.has_deathtouch with
  | some b => b
  | none => card.keywords.contains "deathtouch"

/-- Battlefield read by player and index (Python aliasing of the objects in
`ns.battlefield[p][i]`; the model always reads the current state). -/
def bfGet (ns : GameState) (p i : Nat) : Card :=
  (pget ns.battlefield p).getD i default

/-- In-place mutation of one battlefield card. -/
def bfModify (ns : GameState) (p i : Nat) (f : Card → Card) : GameState :=
  { ns with battlefield := pset ns.battlefield p (listModify (pget ns.battlefield p) i f) }

/-- Add combat damage to a card (`card.damage += d`). -/
def addDamage (d : Int) (c : Card) : Card :=
  { c with damage := c.damage + d }

/-- Indices of the active player's attacking creatures
(`attackers_with_idx` in `resolve_combat_damage`, kept as indices: the
Python pairs alias battlefield objects that the model re-reads by index). -/
def combatAtts (ns : GameState) : List Nat :=
  (((pget ns.battlefield ns.active_player).enum).filter (fun ic => ic.2.attacking)).map (·.1)

/-- The `any_first_strike` scan of `resolve_combat_damage`
(`src/simulator/combat.py` lines 29-40): stop at the first attacker, or live
in-range blocker of one, with first or double strike. -/
def anyFirstStrike (ns : GameState) : List Nat → Bool
  | [] => false
  | att_idx :: rest =>
    let attacker := bfGet ns ns.active_player att_idx
    if has_first_strike attacker || has_double_strike attacker then true
    else
      let defender := 1 - ns.active_player
      match lookupA ns.blocking_assignments att_idx with
      | some blocker_idx =>
        if blocker_idx < (pget ns.battlefield defender).length then
          let blocker := bfGet ns defender blocker_idx
          if has_first_strike blocker || has_double_strike blocker then true
          else anyFirstStrike ns rest
        else anyFirstStrike ns rest
      | none => anyFirstStrike ns rest

/-- Unblocked-attacker damage to the defending player, shared by both damage
steps: subtract the attacker's power from the defender's life, then fire the
attacker's combat-damage trigger if its class defines one. -/
def unblockedHit (hooks : Hooks) (ns : GameState) (attacker : Card) : GameState :=
  let damage := get_creature_power attacker
  let defender := 1 - ns.active_player
  let nsL := { ns with life := pset ns.life defender (pget ns.life defender - damage) }
  match hooks.onHitPlayer attacker with
  | some f => f nsL
  | none => nsL

/-- One attacker of the first-strike damage step (`src/simulator/combat.py`
lines 48-80), threading the state and the dead-index sets. -/
def fsStep (hooks : Hooks) (acc : GameState × List Nat × List Nat) (att_idx : Nat) :
    GameState × List Nat × List Nat :=
  let (ns, dead_attackers, dead_blockers) := acc
  if att_idx ∈ dead_attackers then acc
  else
    let attacker := bfGet ns ns.active_player att_idx
    let attacker_has_fs := has_first_strike attacker || has_double_strike attacker
    let defender := 1 - ns.active_player
    let blocked :=
      match lookupA ns.blocking_assignments att_idx with
      | some blocker_idx =>
        if blocker_idx < (pget ns.battlefield defender).length ∧ blocker_idx ∉ dead_blockers
        then some blocker_idx else none
      | none => none
    match blocked with
    | some blocker_idx =>
      let blocker := bfGet ns defender blocker_idx
      let blocker_has_fs := has_first_strike blocker || has_double_strike blocker
      let attacker_has_dt := has_deathtouch attacker
      let blocker_has_dt := has_deathtouch blocker
      let ns1 := if attacker_has_fs
                 then bfModify ns defender blocker_idx (addDamage (get_creature_power attacker))
                 else ns
      let ns2 := if blocker_has_fs
                 then bfModify ns1 ns1.active_player att_idx (addDamage (get_creature_power blocker))
                 else ns1
      let attacker2 := bfGet ns2 ns2.active_player att_idx
      let blocker2 := bfGet ns2 defender blocker_idx
      let dead_blockers2 :=
        if is_lethal_damage blocker2.damage (get_creature_toughness blocker2) attacker_has_dt
        then pushIdx dead_blockers blocker_idx else dead_blockers
      let dead_attackers2 :=
        if is_lethal_damage attacker2.damage (get_creature_toughness attacker2) blocker_has_dt
        then pushIdx dead_attackers att_idx else dead_attackers
      (ns2, dead_attackers2, dead_blockers2)
    | none =>
      if attacker_has_fs then (unblockedHit hooks ns attacker, dead_attackers, dead_blockers)
      else acc

/-- The first-strike damage step over all attackers. -/
def firstStrikePass (hooks : Hooks) (ns : GameState) (atts : List Nat) :
    GameState × List Nat × List Nat :=
  atts.foldl (fsStep hooks) (ns, [], [])

/-- One attacker of the regular damage step (`src/simulator/combat.py`
lines 95-129): non-first-strikers and double-strikers deal damage now;
deaths are rechecked, attacker first. -/
def regStep (hooks : Hooks) (acc : GameState × List Nat × List Nat) (att_idx : Nat) :
    GameState × List Nat × List Nat :=
  let (ns, dead_attackers, dead_blockers) := acc
  if att_idx ∈ dead_attackers then acc
  else
    let attacker := bfGet ns ns.active_player att_idx
    let attacker_has_fs := has_first_strike attacker
    let attacker_has_ds := has_double_strike attacker
    let defender := 1 - ns.active_player
    let blocked :=
      match lookupA ns.blocking_assignments att_idx with
      | some blocker_idx =>
        if blocker_idx < (pget ns.battlefield defender).length ∧ blocker_idx ∉ dead_blockers
        then some blocker_idx else none
      | none => none
    match blocked with
    | some blocker_idx =>
      let blocker := bfGet ns defender blocker_idx
      let blocker_has_fs := has_first_strike blocker
      let blocker_has_ds := has_double_strike blocker
      let attacker_has_dt := has_deathtouch attacker
      let blocker_has_dt := has_deathtouch blocker
      let ns1 := if !attacker_has_fs || attacker_has_ds
                 then bfModify ns defender blocker_idx (addDamage (get_creature_power attacker))
                 else ns
      let ns2 := if !blocker_has_fs || blocker_has_ds
                 then bfModify ns1 ns1.active_player att_idx (addDamage (get_creature_power blocker))
                 else ns1
      let attacker2 := bfGet ns2 ns2.active_player att_idx
      let blocker2 := bfGet ns2 defender blocker_idx
      let dead_attackers2 :=
        if is_lethal_damage attacker2.damage (get_creature_toughness attacker2) blocker_has_dt
        then pushIdx dead_attackers att_idx else dead_attackers
      let dead_blockers2 :=
        if is_lethal_damage blocker2.damage (get_creature_toughness blocker2) attacker_has_dt
        then pushIdx dead_blockers blocker_idx else dead_blockers
      (ns2, dead_attackers2, dead_blockers2)
    | none =>
      if !attacker_has_fs || attacker_has_ds
      then (unblockedHit hooks ns attacker, dead_attackers, dead_blockers)
      else acc

/-- The regular damage step over all attackers, continuing from the
first-strike step's state and dead sets. -/
def regularPass (hooks : Hooks) (start : GameState × List Nat × List Nat)
    (atts : List Nat) : GameState × List Nat × List Nat :=
  atts.foldl (regStep hooks) start

/-- Death processing for one dead blocker (`src/simulator/combat.py` lines
146-151): append to the defender's graveyard, fire the death trigger, then
remove from the battlefield. -/
def deathStepBlocker (hooks : Hooks) (defender : Nat) (ns : GameState) (blocker_idx : Nat) :
    GameState :=
  let blocker := bfGet ns defender blocker_idx
  let gy1 := pset ns.graveyard defender (pget ns.graveyard defender ++ [blocker])
  let ns1 := { ns with graveyard := gy1 }
  let ns2 := match hooks.onDeath blocker with
             | some f => f ns1
             | none => ns1
  let bf2 := pset ns2.battlefield defender ((pget ns2.battlefield defender).eraseIdx blocker_idx)
  { ns2 with battlefield := bf2 }

/-- Death processing for one dead attacker (`src/simulator/combat.py` lines
153-158); the active player is re-read from the current state as the Python
does. -/
def deathStepAttacker (hooks : Hooks) (ns : GameState) (att_idx : Nat) : GameState :=
  let attacker := bfGet ns ns.active_player att_idx
  let gy1 := pset ns.graveyard ns.active_player (pget ns.graveyard ns.active_player ++ [attacker])
  let ns1 := { ns with graveyard := gy1 }
  let ns2 := match hooks.onDeath attacker with
             | some f => f ns1
             | none => ns1
  let bf2 := pset ns2.battlefield ns2.active_player
    ((pget ns2.battlefield ns2.active_player).eraseIdx att_idx)
  { ns2 with battlefield := bf2 }

/-- Remove dead creatures in reverse index order, blockers first, firing
each death trigger after the graveyard move. -/
def processDeaths (hooks : Hooks) (ns : GameState) (dead_attackers dead_blockers : List Nat) :
    GameState :=
  let defender := 1 - ns.active_player
  let ns1 := (sortDesc dead_blockers).foldl (deathStepBlocker hooks defender) ns
  (sortDesc dead_attackers).foldl (deathStepAttacker hooks) ns1

/-- The early game-over return of `resolve_combat_damage`: mark the game
over with the given winner and move to end of turn, leaving every zone as
it stands. -/
def gameOverStop (ns : GameState) (w : Nat) : GameState :=
  { ns with game_over := true, winner := some w, phase := "end_turn" }

/-- The final game-over check of `resolve_combat_damage`
(`src/simulator/combat.py` lines 160-166), after death processing. -/
def finalGameOver (ns : GameState) : GameState :=
  if pget ns.life 0 ≤ 0 then { ns with game_over := true, winner := some 1 }
  else if pget ns.life 1 ≤ 0 then { ns with game_over := true, winner := some 0 }
  else ns

/-- `resolve_combat_damage` from the regular damage step on
(`src/simulator/combat.py` lines 94-169): run the regular pass, stop with a
game-over the moment a life total is at or below zero — before any dead
creature is processed — otherwise process deaths, re-check game over, and
move to end of turn. -/
def resolveAfterFS (hooks : Hooks) (atts : List Nat)
    (pre : GameState × List Nat × List Nat) : GameState :=
  let res := regularPass hooks pre atts
  let ns2 := res.1
  if pget ns2.life 0 ≤ 0 then gameOverStop ns2 1
  else if pget ns2.life 1 ≤ 0 then gameOverStop ns2 0
  else
    let ns3 := processDeaths hooks ns2 res.2.1 res.2.2
    let ns4 := finalGameOver ns3
    { ns4 with phase := "end_turn" }

/-- `resolve_combat_damage` from `src/simulator/combat.py`: collect
attackers; when any participant strikes first, run the first-strike step and
stop with a game-over if it drops a player to zero or below (player 0
checked first); then the regular step with the same early checks; then death
processing and the final check. -/
def resolve_combat_damage (hooks : Hooks) (state : GameState) : GameState :=
  let ns := state
  let atts := combatAtts ns
  if anyFirstStrike ns atts then
    let fs := firstStrikePass hooks ns atts
    let ns1 := fs.1
    if pget ns1.life 0 ≤ 0 then gameOverStop ns1 1
    else if pget ns1.life 1 ≤ 0 then gameOverStop ns1 0
    else resolveAfterFS hooks atts fs
  else resolveAfterFS hooks atts (ns, [], [])

/-- The trigger section of `upkeep` (`src/simulator/phases/upkeep.py` lines
16-39): active player's upkeep triggers, then the opponent's
upkeep-triggered enchantments, then the game-over check against the active
player's life, then auto-leveling creatures.  Each loop folds over the card
list captured when the Python loop starts. -/
def upkeepTriggered (hooks : Hooks) (state : GameState) : GameState :=
  let ns := state
  let ns1 := (pget ns.battlefield ns.active_player).foldl
    (fun st c => match hooks.onUpkeep c with
                 | some f => f st
                 | none => st) ns
  let opponent := 1 - ns1.active_player
  let ns2 := (pget ns1.enchantments opponent).foldl
    (fun st c => match hooks.onOpponentUpkeep c with
                 | some f => f st
                 | none => st) ns1
  let ns3 := if pget ns2.life ns2.active_player ≤ 0
             then { ns2 with game_over := true, winner := some opponent }
             else ns2
  (pget ns3.battlefield ns3.active_player).foldl
    (fun st c => match hooks.autoLevel c with
                 | some f => f st
                 | none => st) ns3

/-- The board-only signature `upkeep` computes (`src/simulator/phases/
upkeep.py` lines 43-51): sorted per-card signature states of battlefields,
sorted hand names, sorted artifact and enchantment signature states. -/
def upkeepCurrentSig (hooks : Hooks) (ns : GameState) : UpkeepSig :=
  { p1_bf := sortSigs ((pget ns.battlefield 0).map hooks.sigState)
    p2_bf := sortSigs ((pget ns.battlefield 1).map hooks.sigState)
    p1_hand := sortStrings ((pget ns.hands 0).map (·.name))
    p2_hand := sortStrings ((pget ns.hands 1).map (·.name))
    p1_art := sortSigs ((pget ns.artifacts 0).map hooks.sigState)
    p2_art := sortSigs ((pget ns.artifacts 1).map hooks.sigState)
    p1_ench := sortSigs ((pget ns.enchantments 0).map hooks.sigState)
    p2_ench := sortSigs ((pget ns.enchantments 1).map hooks.sigState) }

/-- The stalemate bookkeeping of `upkeep` (`src/simulator/phases/upkeep.py`
lines 53-62): increment the stale counter when the current board-only
signature matches the recorded one (reset it otherwise), record the current
signature, and declare a draw at ten stale upkeeps. -/
def upkeepStale (ns : GameState) (current_sig : UpkeepSig) : GameState :=
  let ns1 := if ns.prev_main_sig = some current_sig
             then { ns with stale_turns := ns.stale_turns + 1 }
             else { ns with stale_turns := 0 }
  let ns2 := { ns1 with prev_main_sig := some current_sig }
  if 10 ≤ ns2.stale_turns
  then { ns2 with game_over := true, winner := none }
  else ns2

/-- The phase transition closing `upkeep` (`src/simulator/phases/upkeep.py`
lines 64-68): to the draw phase only when the active player's library has
cards. -/
def upkeepPhase (ns : GameState) : GameState :=
  if (pget ns.library ns.active_player).isEmpty
  then { ns with phase := "main1" }
  else { ns with phase := "draw" }

/-- `upkeep` from `src/simulator/phases/upkeep.py`: triggers, stalemate
bookkeeping against the board-only signature, then the phase transition. -/
def upkeep (hooks : Hooks) (state : GameState) : GameState :=
  let ns := upkeepTriggered hooks state
  upkeepPhase (upkeepStale ns (upkeepCurrentSig hooks ns))

/-- `draw` from `src/simulator/phases/draw.py`: the player going first skips
the first draw (turn 1, player 0); otherwise pop the top library card into
the hand.  `none` models the `IndexError` Python's `pop(0)` raises on an
empty library (the caller guarantees non-emptiness via `upkeep`). -/
def draw (state : GameState) : Option GameState :=
  let ns := state
  let player := ns.active_player
  if ns.turn = 1 ∧ player = 0 then some { ns with phase := "main1" }
  else
    match pget ns.library player with
    | [] => none
    | card :: rest =>
      some { ns with
        library := pset ns.library player rest
        hands := pset ns.hands player (pget ns.hands player ++ [card])
        phase := "main1" }

end Sim

namespace Solver

/-- A card as the monolithic solver (`src/simulator/solver.py`) sees it: the
data attributes its `GameState.signature`, action generator, combat resolver
and turn handler read.  `Option` fields model attributes only some card
classes define (`hasattr` dispatch); `classCreature` models
`isinstance(card, Creature)` and `is_creature.isSome` models
`isinstance(card, CreatureLand)` (only creature lands carry the
`is_creature` data attribute; on every other card `is_creature` is the
inherited method, rendered by the `SigAtom.m` marker in signatures). -/
structure Card where
  name : String
  tapped : Bool := false
  stun_counters : Int := 0
  entered_this_turn : Bool := false
  classCreature : Bool := false
  is_creature : Option Bool := none
  attacking : Bool := false
  damage : Int := 0
  plus_counters : Option Int := none
  return_to_hand : Bool := false
  level : Option Int := none
  storage_counters : Int := 0
  stay_tapped : Bool := false
  depletion_counters : Int := 0
  spore_counters : Int := 0
  eot_power_boost : Int := 0
  eot_toughness_boost : Int := 0
  power : Option Int := none
  toughness : Option Int := none
  current_power : Option Int := none
  current_toughness : Option Int := none
  has_first_strike : Option Bool := none
  has_double_strike : Option Bool := none
  has_deathtouch : Option Bool := none
  keywords : List String := []
  targeted_this_turn : Bool := false
  combat_trigger_used : Bool := false
  auto_level : Bool := false
deriving DecidableEq

instance : Inhabited Card := ⟨{ name := "" }⟩

/-- The solver's `GameState` dataclass (`src/simulator/solver.py` lines
12-49). -/
structure GameState where
  life : Int × Int := (20, 20)
  hands : List Card × List Card := ([], [])
  battlefield : List Card × List Card := ([], [])
  artifacts : List Card × List Card := ([], [])
  graveyard : List Card × List Card := ([], [])
  active_player : Nat := 0
  phase : String := "main1"
  turn : Int := 1
  land_played_this_turn : Bool := false
  blocking_assignments : List (Nat × Nat) := []
  game_over : Bool := false
  winner : Option Nat := none
deriving DecidableEq

/-- The atom `getattr(c, 'is_creature', False)` contributes to a card's
signature tuple: creature lands expose a boolean, every other card the
inherited method object, collapsed to the `m` marker. -/
def isCreatureAtom (c : Card) : SigAtom :=
  match c.is_creature with
  | some b => SigAtom.b b
  | none => SigAtom.m

/-- The per-card tuple of `GameState.signature` for player 1's battlefield
(`src/simulator/solver.py` lines 160-175). -/
def cardSigP1 (c : Card) : List SigAtom :=
  [SigAtom.s c.name, SigAtom.b c.tapped, SigAtom.i c.stun_counters,
   SigAtom.b c.entered_this_turn, isCreatureAtom c, SigAtom.b c.attacking,
   SigAtom.i c.damage, SigAtom.i (c.plus_counters.getD 0), SigAtom.b c.return_to_hand,
   SigAtom.i (c.level.getD 0), SigAtom.i c.storage_counters, SigAtom.b c.stay_tapped,
   SigAtom.i c.depletion_counters, SigAtom.i c.spore_counters,
   SigAtom.i c.eot_power_boost, SigAtom.i c.eot_toughness_boost]

/-- The per-card tuple for player 2's battlefield (`src/simulator/solver.py`
lines 176-191); the source swaps the `is_creature` and `entered_this_turn`
slots relative to player 1's tuple, and the model preserves that. -/
def cardSigP2 (c : Card) : List SigAtom :=
  [SigAtom.s c.name, SigAtom.b c.tapped, SigAtom.i c.stun_counters,
   isCreatureAtom c, SigAtom.b c.entered_this_turn, SigAtom.b c.attacking,
   SigAtom.i c.damage, SigAtom.i (c.plus_counters.getD 0), SigAtom.b c.return_to_hand,
   SigAtom.i (c.level.getD 0), SigAtom.i c.storage_counters, SigAtom.b c.stay_tapped,
   SigAtom.i c.depletion_counters, SigAtom.i c.spore_counters,
   SigAtom.i c.eot_power_boost, SigAtom.i c.eot_toughness_boost]

/-- The hashable full-state signature (`GameState.signature`,
`src/simulator/solver.py` lines 149-204): life, active player, land-drop
flag, sorted hand names, sorted battlefield card tuples, sorted artifact
pairs and sorted blocking assignments; the turn number is deliberately
excluded. -/
structure Sig where
  life : Int × Int
  active_player : Nat
  land_played_this_turn : Bool
  p1_hand : List String
  p2_hand : List String
  p1_bf : List (List SigAtom)
  p2_bf : List (List SigAtom)
  p1_art : List (String × Bool)
  p2_art : List (String × Bool)
  blocking : List (Nat × Nat)
deriving DecidableEq

/-- The board-only signature (`GameState.board_signature`,
`src/simulator/solver.py` lines 206-257): the same data without the life
totals. -/
structure BSig where
  active_player : Nat
  land_played_this_turn : Bool
  p1_hand : List String
  p2_hand : List String
  p1_bf : List (List SigAtom)
  p2_bf : List (List SigAtom)
  p1_art : List (String × Bool)
  p2_art : List (String × Bool)
  blocking : List (Nat × Nat)
deriving DecidableEq

/-- `GameState.signature`. -/
def signature (s : GameState) : Sig :=
  { life := s.life
    active_player := s.active_player
    land_played_this_turn := s.land_played_this_turn
    p1_hand := sortStrings (s.hands.1.map (·.name))
    p2_hand := sortStrings (s.hands.2.map (·.name))
    p1_bf := sortSigs (s.battlefield.1.map cardSigP1)
    p2_bf := sortSigs (s.battlefield.2.map cardSigP2)
    p1_art := sortArtSigs (s.artifacts.1.map (fun c => (c.name, c.tapped)))
    p2_art := sortArtSigs (s.artifacts.2.map (fun c => (c.name, c.tapped)))
    blocking := sortNatPairs s.blocking_assignments }

/-- `GameState.board_signature`. -/
def board_signature (s : GameState) : BSig :=
  { active_player := s.active_player
    land_played_this_turn := s.land_played_this_turn
    p1_hand := sortStrings (s.hands.1.map (·.name))
    p2_hand := sortStrings (s.hands.2.map (·.name))
    p1_bf := sortSigs (s.battlefield.1.map cardSigP1)
    p2_bf := sortSigs (s.battlefield.2.map cardSigP2)
    p1_art := sortArtSigs (s.artifacts.1.map (fun c => (c.name, c.tapped)))
    p2_art := sortArtSigs (s.artifacts.2.map (fun c => (c.name, c.tapped)))
    blocking := sortNatPairs s.blocking_assignments }

/-- `GameState.get_attackers`: the active player's cards with the
`attacking` flag set. -/
def get_attackers (s : GameState) : List Card :=
  (pget s.battlefield s.active_player).filter (·.attacking)

/-- The card methods the solver calls dynamically: play and battlefield
action enumeration, the `can_attack` / `can_block` probes, and the upkeep,
auto-level, death and combat-damage triggers fired inside `end_turn` and
`resolve_combat_damage`.  `canAttack`'s default is the base
`Creature.can_attack`; a hook returning `none` models a card class without
the method. -/
structure Hooks where
  playActions : Card → GameState → List (GameState → GameState) := fun _ _ => []
  battlefieldActions : Card → GameState → List (GameState → GameState) := fun _ _ => []
  canAttack : Card → Bool := fun c => !c.tapped && !c.entered_this_turn
  canBlock : Card → Card → Bool := fun _ _ => true
  onUpkeep : Card → Option (GameState → GameState) := fun _ => none
  doAutoLevel : Card → GameState → GameState := fun _ s => s
  onDeath : Card → Option (GameState → GameState) := fun _ => none
  onHitPlayer : Card → Option (GameState → GameState) := fun _ => none

/-- `get_creature_power`, the solver's copy (`src/simulator/solver.py`
lines 401-407). -/
def get_creature_power (card : Card) : Int :=
  (match card.current_power with
   | some p => p
   | none => card.power.getD 0) + card.eot_power_boost

/-- `get_creature_toughness`, the solver's copy. -/
def get_creature_toughness (card : Card) : Int :=
  (match card.current_toughness with
   | some t => t
   | none => card.toughness.getD 0) + card.eot_toughness_boost

/-- `has_first_strike`, the solver's copy. -/
def has_first_strike (card : Card) : Bool :=
  match card.has_first_strike with
  | some b => b
  | none => card.keywords.contains "first_strike"

/-- `has_double_strike`, the solver's copy. -/
def has_double_strike (card : Card) : Bool :=
  match card.has_double_strike with
  | some b => b
  | none => card.keywords.contains "double_strike"

/-- `has_deathtouch`, the solver's copy. -/
def has_deathtouch (card : Card) : Bool :=
  match card.has_deathtouch with
  | some b => b
  | none => card.keywords.contains "deathtouch"

/-- `pass_to_combat` inside `get_available_actions`
(`src/simulator/solver.py` lines 275-279). -/
def pass_to_combat : GameState → GameState :=
  fun s => { s with phase := "combat_attack" }

/-- `no_attack` inside `get_available_actions` (lines 321-329): skip to
blocking when attackers were declared, otherwise straight to end of turn. -/
def no_attack : GameState → GameState :=
  fun s =>
    if (get_attackers s).isEmpty then { s with phase := "end_turn" }
    else { s with phase := "combat_block" }

/-- `no_block` inside `get_available_actions` (lines 392-396). -/
def no_block : GameState → GameState :=
  fun s => { s with phase := "combat_damage" }

/-- The attack action `make_attack(i)` builds (lines 310-318): set the
creature at the generation-time battlefield index attacking and tapped. -/
def make_attack (player card_idx : Nat) : GameState → GameState :=
  fun s =>
    let bf := pset s.battlefield player
      (listModify (pget s.battlefield player) card_idx
        (fun c => { c with attacking := true, tapped := true }))
    { s with battlefield := bf }

/-- The equivalence signature deduplicating attack actions (line 303). -/
def attackerDedupSig (c : Card) : String × Int × Int × Int × Int :=
  (c.name, c.power.getD 0, c.toughness.getD 0, c.plus_counters.getD 0, c.level.getD 0)

/-- The attack-enumeration loop of `get_available_actions` (lines 289-318):
walk the battlefield in order, skip non-creatures, creatures that cannot
attack, tapped, already-attacking or summoning-sick ones, and emit one
attack action per unseen equivalence signature. -/
def attackActionsAux (hooks : Hooks) (player : Nat) :
    List (Nat × Card) → List (String × Int × Int × Int × Int) →
    List (GameState → GameState)
  | [], _ => []
  | (i, card) :: rest, seen =>
    if card.classCreature || card.is_creature.isSome then
      if !(hooks.canAttack card) then attackActionsAux hooks player rest seen
      else if card.tapped then attackActionsAux hooks player rest seen
      else if card.attacking then attackActionsAux hooks player rest seen
      else if card.entered_this_turn then attackActionsAux hooks player rest seen
      else
        let creature_sig := attackerDedupSig card
        if creature_sig ∈ seen then attackActionsAux hooks player rest seen
        else make_attack player i :: attackActionsAux hooks player rest (seen ++ [creature_sig])
    else attackActionsAux hooks player rest seen

/-- The block action `make_block` builds (lines 382-389): record the
assignment attacker-index to blocker-index. -/
def make_block (b_idx a_idx : Nat) : GameState → GameState :=
  fun s => { s with blocking_assignments := insertA s.blocking_assignments a_idx b_idx }

/-- A deduplication signature for block actions (lines 363-375):
`(blocker name, power, toughness, plus counters)` paired with
`(attacker name, power)`. -/
abbrev BlockSig := (String × Int × Int × Int) × (String × Int)

/-- The inner attacker loop of block enumeration (lines 366-389): skip
already-blocked attackers, pairs the blocker cannot block, and seen
signature pairs; emit one assignment action per fresh pair, threading the
seen set. -/
def blockInner (hooks : Hooks) (blocker : Card) (b_idx : Nat) (blocked : List Nat) :
    List (Nat × Card) → List BlockSig →
    List (GameState → GameState) × List BlockSig
  | [], seen => ([], seen)
  | (a_idx, attacker) :: rest, seen =>
    if a_idx ∈ blocked then blockInner hooks blocker b_idx blocked rest seen
    else if !(hooks.canBlock blocker attacker) then
      blockInner hooks blocker b_idx blocked rest seen
    else
      let blocker_sig := (blocker.name, blocker.power.getD 0, blocker.toughness.getD 0,
        blocker.plus_counters.getD 0)
      let attacker_sig := (attacker.name, attacker.power.getD 0)
      let block_sig : BlockSig := (blocker_sig, attacker_sig)
      if block_sig ∈ seen then blockInner hooks blocker b_idx blocked rest seen
      else
        let r := blockInner hooks blocker b_idx blocked rest (seen ++ [block_sig])
        (make_block b_idx a_idx :: r.1, r.2)

/-- The outer blocker loop of block enumeration (lines 351-389): skip
non-creatures, tapped or already-assigned blockers, and creature lands not
currently creatures. -/
def blockOuter (hooks : Hooks) (attackers : List (Nat × Card))
    (blocked assigned : List Nat) :
    List (Nat × Card) → List BlockSig → List (GameState → GameState)
  | [], _ => []
  | (b_idx, blocker) :: rest, seen =>
    if !(blocker.classCreature || blocker.is_creature.isSome) then
      blockOuter hooks attackers blocked assigned rest seen
    else if blocker.tapped then blockOuter hooks attackers blocked assigned rest seen
    else if b_idx ∈ assigned then blockOuter hooks attackers blocked assigned rest seen
    else if blocker.is_creature = some false then
      blockOuter hooks attackers blocked assigned rest seen
    else
      let r := blockInner hooks blocker b_idx blocked attackers seen
      r.1 ++ blockOuter hooks attackers blocked assigned rest r.2

/-- `get_available_actions` from `src/simulator/solver.py` (lines 260-398):
in main, hand play actions, battlefield activations and a pass; in the
attack phase, battlefield activations, deduplicated attack declarations and
a no-attack action; in the block phase, the defender's battlefield
activations, deduplicated block assignments and a no-block action; an empty
list otherwise. -/
def get_available_actions (hooks : Hooks) (state : GameState) :
    List (GameState → GameState) :=
  let player := state.active_player
  if state.phase = "main1" then
    ((pget state.hands player).flatMap (fun c => hooks.playActions c state))
    ++ ((pget state.battlefield player).flatMap (fun c => hooks.battlefieldActions c state))
    ++ [pass_to_combat]
  else if state.phase = "combat_attack" then
    ((pget state.battlefield player).flatMap (fun c => hooks.battlefieldActions c state))
    ++ attackActionsAux hooks player (pget state.battlefield player).enum []
    ++ [no_attack]
  else if state.phase = "combat_block" then
    let defender := 1 - player
    let attackers_with_idx :=
      ((pget state.battlefield player).enum).filter (fun ic => ic.2.attacking)
    ((pget state.battlefield defender).flatMap (fun c => hooks.battlefieldActions c state))
    ++ blockOuter hooks attackers_with_idx
        (state.blocking_assignments.map (·.1)) (state.blocking_assignments.map (·.2))
        (pget state.battlefield defender).enum []
    ++ [no_block]
  else []

/-- Battlefield read by player and index, as in the `Sim` model. -/
def bfGet (ns : GameState) (p i : Nat) : Card :=
  (pget ns.battlefield p).getD i default

/-- In-place mutation of one battlefield card. -/
def bfModify (ns : GameState) (p i : Nat) (f : Card → Card) : GameState :=
  { ns with battlefield := pset ns.battlefield p (listModify (pget ns.battlefield p) i f) }

/-- `card.damage += d`. -/
def addDamage (d : Int) (c : Card) : Card :=
  { c with damage := c.damage + d }

/-- Indices of the active player's attacking creatures
(`attackers_with_idx`, `src/simulator/solver.py` lines 459-462). -/
def combatAtts (ns : GameState) : List Nat :=
  (((pget ns.battlefield ns.active_player).enum).filter (fun ic => ic.2.attacking)).map (·.1)

/-- The `any_first_strike` scan (`src/simulator/solver.py` lines 465-474). -/
def anyFirstStrike (ns : GameState) : List Nat → Bool
  | [] => false
  | att_idx :: rest =>
    let attacker := bfGet ns ns.active_player att_idx
    if has_first_strike attacker || has_double_strike attacker then true
    else
      let defender := 1 - ns.active_player
      match lookupA ns.blocking_assignments att_idx with
      | some blocker_idx =>
        if blocker_idx < (pget ns.battlefield defender).length then
          let blocker := bfGet ns defender blocker_idx
          if has_first_strike blocker || has_double_strike blocker then true
          else anyFirstStrike ns rest
        else anyFirstStrike ns rest
      | none => anyFirstStrike ns rest

/-- Unblocked-attacker damage to the defending player, shared by both damage
steps of the solver's resolver. -/
def unblockedHit (hooks : Hooks) (ns : GameState) (attacker : Card) : GameState :=
  let damage := get_creature_power attacker
  let defender := 1 - ns.active_player
  let nsL := { ns with life := pset ns.life defender (pget ns.life defender - damage) }
  match hooks.onHitPlayer attacker with
  | some f => f nsL
  | none => nsL

/-- One attacker of the first-strike step of the solver's resolver
(`src/simulator/solver.py` lines 482-515). -/
def fsStep (hooks : Hooks) (acc : GameState × List Nat × List Nat) (att_idx : Nat) :
    GameState × List Nat × List Nat :=
  let (ns, dead_attackers, dead_blockers) := acc
  if att_idx ∈ dead_attackers then acc
  else
    let attacker := bfGet ns ns.active_player att_idx
    let attacker_has_fs := has_first_strike attacker || has_double_strike attacker
    let defender := 1 - ns.active_player
    let blocked :=
      match lookupA ns.blocking_assignments att_idx with
      | some blocker_idx =>
        if blocker_idx < (pget ns.battlefield defender).length ∧ blocker_idx ∉ dead_blockers
        then some blocker_idx else none
      | none => none
    match blocked with
    | some blocker_idx =>
      let blocker := bfGet ns defender blocker_idx
      let blocker_has_fs := has_first_strike blocker || has_double_strike blocker
      let attacker_has_dt := has_deathtouch attacker
      let blocker_has_dt := has_deathtouch blocker
      let ns1 := if attacker_has_fs
                 then bfModify ns defender blocker_idx (addDamage (get_creature_power attacker))
                 else ns
      let ns2 := if blocker_has_fs
                 then bfModify ns1 ns1.active_player att_idx (addDamage (get_creature_power blocker))
                 else ns1
      let attacker2 := bfGet ns2 ns2.active_player att_idx
      let blocker2 := bfGet ns2 defender blocker_idx
      let dead_blockers2 :=
        if is_lethal_damage blocker2.damage (get_creature_toughness blocker2) attacker_has_dt
        then pushIdx dead_blockers blocker_idx else dead_blockers
      let dead_attackers2 :=
        if is_lethal_damage attacker2.damage (get_creature_toughness attacker2) blocker_has_dt
        then pushIdx dead_attackers att_idx else dead_attackers
      (ns2, dead_attackers2, dead_blockers2)
    | none =>
      if attacker_has_fs then (unblockedHit hooks ns attacker, dead_attackers, dead_blockers)
      else acc

/-- One attacker of the regular step of the solver's resolver
(`src/simulator/solver.py` lines 518-552). -/
def regStep (hooks : Hooks) (acc : GameState × List Nat × List Nat) (att_idx : Nat) :
    GameState × List Nat × List Nat :=
  let (ns, dead_attackers, dead_blockers) := acc
  if att_idx ∈ dead_attackers then acc
  else
    let attacker := bfGet ns ns.active_player att_idx
    let attacker_has_fs := has_first_strike attacker
    let attacker_has_ds := has_double_strike attacker
    let defender := 1 - ns.active_player
    let blocked :=
      match lookupA ns.blocking_assignments att_idx with
      | some blocker_idx =>
        if blocker_idx < (pget ns.battlefield defender).length ∧ blocker_idx ∉ dead_blockers
        then some blocker_idx else none
      | none => none
    match blocked with
    | some blocker_idx =>
      let blocker := bfGet ns defender blocker_idx
      let blocker_has_fs := has_first_strike blocker
      let blocker_has_ds := has_double_strike blocker
      let attacker_has_dt := has_deathtouch attacker
      let blocker_has_dt := has_deathtouch blocker
      let ns1 := if !attacker_has_fs || attacker_has_ds
                 then bfModify ns defender blocker_idx (addDamage (get_creature_power attacker))
                 else ns
      let ns2 := if !blocker_has_fs || blocker_has_ds
                 then bfModify ns1 ns1.active_player att_idx (addDamage (get_creature_power blocker))
                 else ns1
      let attacker2 := bfGet ns2 ns2.active_player att_idx
      let blocker2 := bfGet ns2 defender blocker_idx
      let dead_attackers2 :=
        if is_lethal_damage attacker2.damage (get_creature_toughness attacker2) blocker_has_dt
        then pushIdx dead_attackers att_idx else dead_attackers
      let dead_blockers2 :=
        if is_lethal_damage blocker2.damage (get_creature_toughness blocker2) attacker_has_dt
        then pushIdx dead_blockers blocker_idx else dead_blockers
      (ns2, dead_attackers2, dead_blockers2)
    | none =>
      if !attacker_has_fs || attacker_has_ds
      then (unblockedHit hooks ns attacker, dead_attackers, dead_blockers)
      else acc

/-- Death processing for one dead blocker (`src/simulator/solver.py` lines
556-561). -/
def deathStepBlocker (hooks : Hooks) (defender : Nat) (ns : GameState) (blocker_idx : Nat) :
    GameState :=
  let blocker := bfGet ns defender blocker_idx
  let gy1 := pset ns.graveyard defender (pget ns.graveyard defender ++ [blocker])
  let ns1 := { ns with graveyard := gy1 }
  let ns2 := match hooks.onDeath blocker with
             | some f => f ns1
             | none => ns1
  let bf2 := pset ns2.battlefield defender ((pget ns2.battlefield defender).eraseIdx blocker_idx)
  { ns2 with battlefield := bf2 }

/-- Death processing for one dead attacker (`src/simulator/solver.py` lines
563-568). -/
def deathStepAttacker (hooks : Hooks) (ns : GameState) (att_idx : Nat) : GameState :=
  let attacker := bfGet ns ns.active_player att_idx
  let gy1 := pset ns.graveyard ns.active_player (pget ns.graveyard ns.active_player ++ [attacker])
  let ns1 := { ns with graveyard := gy1 }
  let ns2 := match hooks.onDeath attacker with
             | some f => f ns1
             | none => ns1
  let bf2 := pset ns2.battlefield ns2.active_player
    ((pget ns2.battlefield ns2.active_player).eraseIdx att_idx)
  { ns2 with battlefield := bf2 }

/-- `resolve_combat_damage` from `src/simulator/solver.py` (lines 453-579).
Unlike the modular resolver in `src/simulator/combat.py`, this version has
no early game-over returns: it runs both damage steps, processes deaths,
and only then checks life totals, before moving to end of turn. -/
def resolve_combat_damage (hooks : Hooks) (state : GameState) : GameState :=
  let ns := state
  let atts := combatAtts ns
  let pre := if anyFirstStrike ns atts
             then atts.foldl (fsStep hooks) (ns, [], [])
             else (ns, [], [])
  let res := atts.foldl (regStep hooks) pre
  let ns2 := res.1
  let defender := 1 - ns2.active_player
  let ns3 := (sortDesc res.2.2).foldl (deathStepBlocker hooks defender) ns2
  let ns4 := (sortDesc res.2.1).foldl (deathStepAttacker hooks) ns3
  let ns5 :=
    if pget ns4.life 0 ≤ 0 then { ns4 with game_over := true, winner := some 1 }
    else if pget ns4.life 1 ≤ 0 then { ns4 with game_over := true, winner := some 0 }
    else ns4
  { ns5 with phase := "end_turn" }

/-- The per-card untap treatment of `end_turn`'s new-active-player loop
(`src/simulator/solver.py` lines 626-647), for cards that are not bouncing
back to hand: a stun counter replaces the untap, storage lands may stay
tapped, everyone else untaps; summoning sickness and the per-turn trigger
flags reset. -/
def untapResetCard (c : Card) : Card :=
  let c1 := if 0 < c.stun_counters then { c with stun_counters := c.stun_counters - 1 }
            else if c.stay_tapped then c
            else { c with tapped := false }
  { c1 with entered_this_turn := false, targeted_this_turn := false,
            combat_trigger_used := false }

/-- `end_turn` from `src/simulator/solver.py` (lines 582-668): reset combat
flags and damage, clear until-end-of-turn boosts, revert creature lands,
clear blocks, pass the turn, untap the new active player's permanents
(returning bouncing lands to hand), then fire upkeep triggers and
auto-levelers for the new active player.  The single Python function is cut
into the small steps below, composed in source order by `end_turn`. -/
def etClearAttacking (c : Card) : Card :=
  { c with attacking := false }

/-- `end_turn` lines 592-595: clear combat damage on every card. -/
def etClearDamage (c : Card) : Card :=
  { c with damage := 0 }

/-- `end_turn` lines 598-603: clear until-end-of-turn boosts. -/
def etClearEot (c : Card) : Card :=
  { c with eot_power_boost := 0, eot_toughness_boost := 0 }

/-- `end_turn` lines 606-609: creature lands stop being creatures. -/
def etRevertCreatureLand (c : Card) : Card :=
  if c.is_creature.isSome
  then { c with is_creature := some false, damage := 0, attacking := false }
  else c

/-- `end_turn` lines 587-609: the active player's cards stop attacking, all
damage and end-of-turn boosts clear, and the active player's creature lands
revert. -/
def endTurnResetCombat (state : GameState) : GameState :=
  let ap := state.active_player
  let bf1 := pset state.battlefield ap ((pget state.battlefield ap).map etClearAttacking)
  let ns1 := { state with battlefield := bf1 }
  let bf2 := (ns1.battlefield.1.map etClearDamage, ns1.battlefield.2.map etClearDamage)
  let ns2 := { ns1 with battlefield := bf2 }
  let bf3 := (ns2.battlefield.1.map etClearEot, ns2.battlefield.2.map etClearEot)
  let ns3 := { ns2 with battlefield := bf3 }
  let bf4 := pset ns3.battlefield ap ((pget ns3.battlefield ap).map etRevertCreatureLand)
  { ns3 with battlefield := bf4 }

/-- `end_turn` lines 612-620: clear blocks, switch the active player, reset
phase and land drop, bump the turn counter. -/
def endTurnSwitch (state : GameState) : GameState :=
  { state with blocking_assignments := []
               active_player := 1 - state.active_player
               phase := "main1"
               land_played_this_turn := false
               turn := state.turn + 1 }

/-- `end_turn` lines 625-655: untap the new active player's permanents
(stun counters replace untapping, bouncing lands return to hand with their
flags reset) and untap that player's artifacts. -/
def endTurnUntap (state : GameState) : GameState :=
  let np := state.active_player
  let bfN := pget state.battlefield np
  let cards_to_return := bfN.filter (·.return_to_hand)
  let bfN2 := (bfN.filter (fun c => !c.return_to_hand)).map untapResetCard
  let ns1 := { state with battlefield := pset state.battlefield np bfN2 }
  let returnedCards := cards_to_return.map
    (fun c => { c with tapped := false, return_to_hand := false })
  let ns2 := { ns1 with hands := pset ns1.hands np (pget ns1.hands np ++ returnedCards) }
  let artN := pset ns2.artifacts np ((pget ns2.artifacts np).map (fun c => { c with tapped := false }))
  { ns2 with artifacts := artN }

/-- `end_turn` lines 658-666: fire the new active player's upkeep triggers,
then auto-level; each loop folds over the card list captured at loop
entry. -/
def endTurnTriggers (hooks : Hooks) (state : GameState) : GameState :=
  let ns1 := (pget state.battlefield state.active_player).foldl
    (fun st c => match hooks.onUpkeep c with
                 | some f => f st
                 | none => st) state
  (pget ns1.battlefield ns1.active_player).foldl
    (fun st c => if c.auto_level then hooks.doAutoLevel c st else st) ns1

/-- `end_turn` from `src/simulator/solver.py` (lines 582-668), the steps
above in source order. -/
def end_turn (hooks : Hooks) (state : GameState) : GameState :=
  endTurnTriggers hooks (endTurnUntap (endTurnSwitch (endTurnResetCombat state)))

/-- The terminal branch of `minimax` (`src/simulator/solver.py` lines
691-696): score a finished game relative to the perspective player. -/
def terminalValue (state : GameState) (player : Nat) : Int :=
  if state.winner = some player then 1
  else if state.winner = some (1 - player) then -1
  else 0

/-- `has_token_gen` inside the depth-cap heuristic (lines 713-714). -/
def has_token_gen (bf : List Card) : Bool :=
  bf.any (·.name = "Thallid")

/-- `can_grow` inside the depth-cap heuristic (lines 716-722): a creature
grows when its class carries plus counters or levels. -/
def can_grow (creatures : List Card) : Bool :=
  creatures.any (fun c => c.plus_counters.isSome || c.level.isSome)

/-- The depth-cap heuristic of `minimax` (lines 699-734), applied past depth
500: with both hands empty, creatures against an empty board win, and a
token generator beats a side that neither grows nor generates; otherwise
the position is scored a draw. -/
def heuristicValue (state : GameState) (player : Nat) : Int :=
  if state.hands.1.isEmpty ∧ state.hands.2.isEmpty then
    let p1_creatures := state.battlefield.1.filter
      (fun c => match c.power with
                | some p => 0 < p
                | none => false)
    let p2_creatures := state.battlefield.2.filter
      (fun c => match c.power with
                | some p => 0 < p
                | none => false)
    if ¬p1_creatures.isEmpty ∧ p2_creatures.isEmpty then (if player = 0 then 1 else -1)
    else if ¬p2_creatures.isEmpty ∧ p1_creatures.isEmpty then (if player = 1 then 1 else -1)
    else
      let p1_token_gen := has_token_gen state.battlefield.1
      let p2_token_gen := has_token_gen state.battlefield.2
      let p1_grows := can_grow p1_creatures
      let p2_grows := can_grow p2_creatures
      if p2_token_gen ∧ ¬p1_token_gen ∧ ¬p1_grows then (if player = 1 then 1 else -1)
      else if p1_token_gen ∧ ¬p2_token_gen ∧ ¬p2_grows then (if player = 0 then 1 else -1)
      else 0
  else 0

/-- A transposition-table key: `(state.signature(), state.phase, player)`. -/
abbrev Key := Sig × String × Nat

/-- A dominance-table key: `(state.board_signature(), state.phase, player)`. -/
abbrev BKey := BSig × String × Nat

/-- The transposition table: value and bound flag per key. -/
abbrev Memo := List (Key × (Int × String))

/-- The dominance table: life-pair/result triples per board key. -/
abbrev Dom := List (BKey × List (Int × Int × Int))

/-- The transposition-table lookup inlined in `minimax`
(`src/simulator/solver.py` lines 737-745): exact entries always answer,
lower bounds only at or above beta, upper bounds only at or below alpha. -/
def memoUsable (memo : Memo) (key : Key) (alpha beta : Int) : Option Int :=
  match lookupA memo key with
  | none => none
  | some (cached_value, flag) =>
    if flag = "exact" then some cached_value
    else if flag = "lower" ∧ beta ≤ cached_value then some cached_value
    else if flag = "upper" ∧ cached_value ≤ alpha then some cached_value
    else none

/-- The dominance check inlined in `minimax` (lines 747-762): the same
triple scan as `check_dominance` in `src/simulator/tables.py`. -/
def dominanceCheck (dom : Dom) (board_key : BKey) (life : Int × Int) (player : Nat) :
    Option Int :=
  match lookupA dom board_key with
  | none => none
  | some triples =>
    dominanceScanList (pget life player) (pget life (1 - player)) triples

/-- The dominance-table append inlined in `minimax` (lines 838-840). -/
def domAppend (dom : Dom) (board_key : BKey) (t : Int × Int × Int) : Dom :=
  match lookupA dom board_key with
  | none => insertA dom board_key [t]
  | some triples => insertA dom board_key (triples ++ [t])

/-- Proof instrumentation: one record per transposition-table store that
`minimax` performs, carrying the stored value and flag, the node's original
alpha/beta window, the beta in force at classification time, the node's
life pair and whether a dominance-table append accompanied the store.  The
log does not influence the search. -/
structure StoreEvent where
  key : Key
  board_key : BKey
  value : Int
  flag : String
  orig_alpha : Int
  orig_beta : Int
  store_beta : Int
  my_life : Int
  opp_life : Int
  dom_stored : Bool
deriving DecidableEq

/-- What one `minimax` call returns: the Python function's return value
together with the transposition and dominance tables it mutated, plus the
ghost store log. -/
structure SearchRes where
  val : Int
  memo : Memo
  dom : Dom
  log : List StoreEvent
deriving DecidableEq

/-- The store block closing `minimax` (`src/simulator/solver.py` lines
830-840): classify the loop's best score against the original alpha and the
current beta; on an exact classification also append the node's life pair
and score to the dominance table.  `store_beta` is the beta variable at
classification time (the minimizing loop lowers it), `orig_beta` the
caller's beta, recorded for the log only. -/
def classifyStore (key : Key) (board_key : BKey) (my_life opp_life : Int)
    (best_score original_alpha orig_beta store_beta : Int)
    (memo : Memo) (dom : Dom) (log : List StoreEvent) : SearchRes :=
  if best_score ≤ original_alpha then
    ⟨best_score, insertA memo key (best_score, "upper"), dom,
      log ++ [⟨key, board_key, best_score, "upper", original_alpha, orig_beta, store_beta,
        my_life, opp_life, false⟩]⟩
  else if store_beta ≤ best_score then
    ⟨best_score, insertA memo key (best_score, "lower"), dom,
      log ++ [⟨key, board_key, best_score, "lower", original_alpha, orig_beta, store_beta,
        my_life, opp_life, false⟩]⟩
  else
    ⟨best_score, insertA memo key (best_score, "exact"),
      domAppend dom board_key (my_life, opp_life, best_score),
      log ++ [⟨key, board_key, best_score, "exact", original_alpha, orig_beta, store_beta,
        my_life, opp_life, true⟩]⟩

/-- The store of an automatic-phase or forced-transition result
(`src/simulator/solver.py` lines 770, 776, 798): always flagged exact, no
dominance append. -/
def autoStore (key : Key) (board_key : BKey) (my_life opp_life : Int)
    (r : SearchRes) (alpha beta : Int) : SearchRes :=
  ⟨r.val, insertA r.memo key (r.val, "exact"), r.dom,
    r.log ++ [⟨key, board_key, r.val, "exact", alpha, beta, beta,
      my_life, opp_life, false⟩]⟩

/-- The running state of an alpha-beta action loop: the best score so far,
the mutating bound (alpha when maximizing, beta when minimizing), the
tables, the ghost log, and the Python `break` rendered as a `done` flag. -/
structure LoopAcc where
  best : Int
  bound : Int
  memo : Memo
  dom : Dom
  log : List StoreEvent
  done : Bool
deriving DecidableEq

/-- The maximizing action loop (`src/simulator/solver.py` lines 809-818):
raise best and alpha with each child score, stop at alpha ≥ beta. -/
def maxLoop (child : GameState → Memo → Int → Dom → SearchRes)
    (state : GameState) (beta : Int) :
    List (GameState → GameState) → LoopAcc → LoopAcc
  | [], acc => acc
  | action :: rest, acc =>
    if acc.done then acc
    else
      let r := child (action state) acc.memo acc.bound acc.dom
      let best := max acc.best r.val
      let alpha := max acc.bound r.val
      maxLoop child state beta rest
        ⟨best, alpha, r.memo, r.dom, acc.log ++ r.log, decide (beta ≤ alpha)⟩

/-- The minimizing action loop (`src/simulator/solver.py` lines 819-828):
lower best and beta with each child score, stop at alpha ≥ beta. -/
def minLoop (child : GameState → Memo → Int → Dom → SearchRes)
    (state : GameState) (alpha : Int) :
    List (GameState → GameState) → LoopAcc → LoopAcc
  | [], acc => acc
  | action :: rest, acc =>
    if acc.done then acc
    else
      let r := child (action state) acc.memo acc.bound acc.dom
      let best := min acc.best r.val
      let beta := min acc.bound r.val
      minLoop child state alpha rest
        ⟨best, beta, r.memo, r.dom, acc.log ++ r.log, decide (beta ≤ alpha)⟩

/-- `minimax` from `src/simulator/solver.py` (lines 671-842), with the depth
counter rendered as fuel (a call at Python depth `d` is a call at fuel
`501 - d`; `depth > 500` is fuel `0`, and every recursive call spends one
unit): terminal scoring, the depth-cap heuristic, the transposition lookup,
the dominance lookup, the automatic combat-damage and end-turn transitions
(recursed with the caller's window and stored exact), the forced transition
when no action exists, and the alpha-beta loop over the decision maker's
actions followed by the classify-and-store block. -/
def minimax (hooks : Hooks) : Nat → GameState → Nat → Memo → Int → Int → Dom → SearchRes
  | 0, state, player, memo, _, _, dom =>
    if state.game_over then ⟨terminalValue state player, memo, dom, []⟩
    else ⟨heuristicValue state player, memo, dom, []⟩
  | fuel + 1, state, player, memo, alpha, beta, dom =>
    if state.game_over then ⟨terminalValue state player, memo, dom, []⟩
    else
      let key : Key := (signature state, state.phase, player)
      match memoUsable memo key alpha beta with
      | some cached_value => ⟨cached_value, memo, dom, []⟩
      | none =>
        let board_key : BKey := (board_signature state, state.phase, player)
        match dominanceCheck dom board_key state.life player with
        | some v => ⟨v, memo, dom, []⟩
        | none =>
          let original_alpha := alpha
          let my_life := pget state.life player
          let opp_life := pget state.life (1 - player)
          if state.phase = "combat_damage" then
            let r := minimax hooks fuel (resolve_combat_damage hooks state) player
              memo alpha beta dom
            autoStore key board_key my_life opp_life r alpha beta
          else if state.phase = "end_turn" then
            let r := minimax hooks fuel (end_turn hooks state) player memo alpha beta dom
            autoStore key board_key my_life opp_life r alpha beta
          else
            let actions := get_available_actions hooks state
            if actions.isEmpty then
              if state.phase = "main1" then
                let r := minimax hooks fuel { state with phase := "combat_attack" } player
                  memo alpha beta dom
                autoStore key board_key my_life opp_life r alpha beta
              else if state.phase = "combat_attack" then
                let r := minimax hooks fuel { state with phase := "end_turn" } player
                  memo alpha beta dom
                autoStore key board_key my_life opp_life r alpha beta
              else if state.phase = "combat_block" then
                let r := minimax hooks fuel { state with phase := "combat_damage" } player
                  memo alpha beta dom
                autoStore key board_key my_life opp_life r alpha beta
              else
                autoStore key board_key my_life opp_life ⟨0, memo, dom, []⟩ alpha beta
            else
              let decision_maker :=
                if state.phase = "combat_block" then 1 - state.active_player
                else state.active_player
              if decision_maker = player then
                let fin := maxLoop
                  (fun ns m a d => minimax hooks fuel ns player m a beta d)
                  state beta actions ⟨-2, alpha, memo, dom, [], false⟩
                classifyStore key board_key my_life opp_life fin.best original_alpha
                  beta beta fin.memo fin.dom fin.log
              else
                let fin := minLoop
                  (fun ns m b d => minimax hooks fuel ns player m alpha b d)
                  state alpha actions ⟨2, beta, memo, dom, [], false⟩
                classifyStore key board_key my_life opp_life fin.best original_alpha
                  beta fin.bound fin.memo fin.dom fin.log

end Solver

namespace Sim

/-- The `(state, dead attackers, dead blockers)` data entering the regular
damage step of `Sim.resolve_combat_damage`: the first-strike step's outcome
when one occurs, the untouched input otherwise. -/
def passPre (hooks : Hooks) (s : GameState) : GameState × List Nat × List Nat :=
  if anyFirstStrike s (combatAtts s) then firstStrikePass hooks s (combatAtts s)
  else (s, [], [])

/-- The data at the regular-pass game-over checkpoint of
`Sim.resolve_combat_damage` (`src/simulator/combat.py` line 131): both
damage steps done, no death processed yet. -/
def afterPasses (hooks : Hooks) (s : GameState) : GameState × List Nat × List Nat :=
  regularPass hooks (passPre hooks s) (combatAtts s)

end Sim

namespace Solver

/-- Replay one ghost store event against a dominance table: an event marked
`dom_stored` appends its life pair and value under its board key. -/
def applyDomEvent (d : Dom) (e : StoreEvent) : Dom :=
  if e.dom_stored then domAppend d e.board_key (e.my_life, e.opp_life, e.value) else d

/-- The invariant each ghost store event satisfies: an event that appended
to the dominance table was classified exact, with its value strictly inside
the original alpha/beta window of its node. -/
def GoodEvent (e : StoreEvent) : Prop :=
  e.dom_stored = true → e.flag = "exact" ∧ e.orig_alpha < e.value ∧ e.value < e.orig_beta

instance (e : StoreEvent) : Decidable (GoodEvent e) := by
  unfold GoodEvent
  infer_instance

end Solver

/-! Concrete scenario states used by the counterexamples and witnesses. -/

/-- Trivial modular hooks: no card class defines any trigger. -/
def simHooks0 : Sim.Hooks := {}

/-- Trivial solver hooks: no play or battlefield actions, base
`can_attack`, permissive `can_block`, no triggers. -/
def solverHooks0 : Solver.Hooks := {}

/-- A dominance-table bucket holding a win triple before a loss triple at
the same life pair. -/
def conflictTriples : List (Int × Int × Int) := [(5, 5, 1), (5, 5, -1)]

/-- A dominance table with the conflicting bucket under board key `0`. -/
def conflictDom : List (Nat × List (Int × Int × Int)) := [(0, conflictTriples)]

/-- The 2/2 double-strike attacker of the double-strike scenario, already
attacking and tapped. -/
def dsAttacker : Sim.Card :=
  { name := "DS", power := some 2, toughness := some 2,
    keywords := ["double_strike"], attacking := true, tapped := true }

/-- The 3/3 vanilla blocker of the double-strike scenario. -/
def dsBlocker : Sim.Card :=
  { name := "V", power := some 3, toughness := some 3 }

/-- The double-strike combat-damage state: the attacker blocked by the
vanilla 3/3. -/
def dsState : Sim.GameState :=
  { battlefield := ([dsAttacker], [dsBlocker]), blocking_assignments := [(0, 0)],
    phase := "combat_damage", active_player := 0 }

/-- A 3/3 unblocked attacker for player 0. -/
def lethalAttacker : Sim.Card :=
  { name := "A", power := some 3, toughness := some 3, attacking := true, tapped := true }

/-- A combat-damage state whose defender is at 2 life against the unblocked
3/3: the regular pass drops the defender below zero. -/
def lethalState : Sim.GameState :=
  { battlefield := ([lethalAttacker], []), phase := "combat_damage",
    active_player := 0, life := (20, 2) }

/-- A 3/1 unblocked first-strike attacker for player 0. -/
def fsLethalAttacker : Sim.Card :=
  { name := "F", power := some 3, toughness := some 1,
    keywords := ["first_strike"], attacking := true, tapped := true }

/-- A combat-damage state whose defender is at 2 life against the unblocked
first-striker: already the first-strike pass drops the defender below
zero, so the resolver stops at the first-strike checkpoint. -/
def fsLethalState : Sim.GameState :=
  { battlefield := ([fsLethalAttacker], []), phase := "combat_damage",
    active_player := 0, life := (20, 2) }

/-- A 2/2 unblocked attacker for player 1. -/
def raceAttacker : Sim.Card :=
  { name := "R", power := some 2, toughness := some 2, attacking := true, tapped := true }

/-- A combat-damage state in which the attacking player already sits at 0
life while the unblocked 2/2 drops the defender to 0: both life totals are
at or below zero after the regular pass. -/
def doubleKOState : Sim.GameState :=
  { battlefield := ([], [raceAttacker]), phase := "combat_damage",
    active_player := 1, life := (2, 0) }

/-- A 2/2 unblocked first-strike attacker for player 1. -/
def fsRaceAttacker : Sim.Card :=
  { name := "FR", power := some 2, toughness := some 2,
    keywords := ["first_strike"], attacking := true, tapped := true }

/-- A combat-damage state in which the attacking player already sits at 0
life while the unblocked first-striker drops the defender to 0 in the
first-strike pass: both life totals are at or below zero at the
first-strike checkpoint. -/
def fsDoubleKOState : Sim.GameState :=
  { battlefield := ([], [fsRaceAttacker]), phase := "combat_damage",
    active_player := 1, life := (2, 0) }

/-- The board-only signature of a state with empty zones. -/
def emptyUpkeepSig : Sim.UpkeepSig :=
  { p1_bf := [], p2_bf := [], p1_hand := [], p2_hand := [],
    p1_art := [], p2_art := [], p1_ench := [], p2_ench := [] }

/-- An upkeep state one stale turn short of the draw threshold whose board
signature matches the recorded one. -/
def staleState : Sim.GameState :=
  { prev_main_sig := some emptyUpkeepSig, stale_turns := 9, phase := "upkeep" }

/-- A hand card with one play action in the window-dependence scenario. -/
def cardX : Solver.Card := { name := "X" }

/-- The automatic-phase start state of the window-dependence scenario:
combat damage with no attackers, player 1 holding `X`. -/
def autoBugState : Solver.GameState :=
  { phase := "combat_damage", hands := ([], [cardX]), active_player := 0, turn := 1 }

/-- The play action of `X` for player 1: discard the hand (any state change
distinguishing the successor's signature serves). -/
def playX1 : Solver.GameState → Solver.GameState :=
  fun st => { st with hands := pset st.hands 1 [] }

/-- Hooks under which `X` has exactly the one play action. -/
def autoBugHooks : Solver.Hooks :=
  { playActions := fun c _ => if c.name = "X" then [playX1] else [] }

/-- The choice node two automatic transitions below `autoBugState`:
player 1's main phase. -/
def autoBugMain : Solver.GameState :=
  Solver.end_turn autoBugHooks (Solver.resolve_combat_damage autoBugHooks autoBugState)

/-- The successor reached by playing `X`. -/
def autoBugPlayed : Solver.GameState := playX1 autoBugMain

/-- The successor reached by passing to combat. -/
def autoBugPassed : Solver.GameState := Solver.pass_to_combat autoBugMain

/-- A transposition table scoring the play-`X` successor 0 and the
pass-to-combat successor -1, both exact: under the full window the choice
node is worth -1 for player 0, under the window `(0, 2)` the first child
already causes a cutoff and the node reports 0. -/
def autoBugMemo : Solver.Memo :=
  [((Solver.signature autoBugPlayed, "main1", 0), (0, "exact")),
   ((Solver.signature autoBugPassed, "combat_attack", 0), (-1, "exact"))]

/-- The transposition key of the automatic-phase start state. -/
def autoBugKey : Solver.Key :=
  (Solver.signature autoBugState, "combat_damage", 0)

/-- A main-phase state for player 0 holding `X`, used to exercise an exact
store with a dominance append at a maximizing node. -/
def domStoreState : Solver.GameState :=
  { hands := ([cardX], []), active_player := 0, phase := "main1" }

/-- The play action of `X` for player 0. -/
def playX0 : Solver.GameState → Solver.GameState :=
  fun st => { st with hands := pset st.hands 0 [] }

/-- Hooks under which `X` has exactly the one play action for player 0. -/
def domStoreHooks : Solver.Hooks :=
  { playActions := fun c _ => if c.name = "X" then [playX0] else [] }

/-- A transposition table scoring both successors of `domStoreState` 0
exact: the maximizing node's best score 0 lies strictly inside the full
window, so the store is exact and feeds the dominance table. -/
def domStoreMemo : Solver.Memo :=
  [((Solver.signature (playX0 domStoreState), "main1", 0), (0, "exact")),
   ((Solver.signature (Solver.pass_to_combat domStoreState), "combat_attack", 0), (0, "exact"))]

/-! ## Theorems -/

/-- C7: for all non-negative integers `damage` and `toughness` and every
deathtouch flag, `is_lethal_damage damage toughness deathtouch` equals
`(deathtouch AND damage > 0) OR (damage >= toughness)`. -/
theorem is_lethal_damage_lethality_law (damage toughness : Int) (deathtouch : Bool)
    (hd : 0 ≤ damage) (ht : 0 ≤ toughness) :
    is_lethal_damage damage toughness deathtouch =
      ((deathtouch && decide (0 < damage)) || decide (toughness ≤ damage)) := by
  unfold is_lethal_damage
  by_cases h : deathtouch = true ∧ 0 < damage
  · simp [h.1, h.2, if_pos h]
  · rw [if_neg h]
    cases deathtouch with
    | false => simp
    | true =>
      simp only [true_and, not_lt] at h
      simp [h]

/-- Witness for C7 at `damage = 3`, `toughness = 2`, no deathtouch. -/
theorem is_lethal_damage_lethality_law_witness :
    (0 ≤ (3 : Int)) ∧ (0 ≤ (2 : Int)) ∧
    is_lethal_damage 3 2 false = ((false && decide ((0 : Int) < 3)) || decide ((2 : Int) ≤ 3)) :=
  ⟨by decide, by decide, is_lethal_damage_lethality_law 3 2 false (by decide) (by decide)⟩

/-- C8: a 2/2 double-strike attacker blocked by a 3/3 vanilla creature
deals 2 in the first-strike pass and 2 more in the regular pass (4 total,
the blocker dies), takes 3 in the regular pass (and dies), and both
creatures leave the battlefield for their owners' graveyards. -/
theorem double_strike_combat_scenario :
    Sim.anyFirstStrike dsState (Sim.combatAtts dsState) = true ∧
    (Sim.bfGet (Sim.firstStrikePass simHooks0 dsState (Sim.combatAtts dsState)).1 1 0).damage = 2 ∧
    (Sim.bfGet (Sim.firstStrikePass simHooks0 dsState (Sim.combatAtts dsState)).1 0 0).damage = 0 ∧
    (Sim.bfGet (Sim.afterPasses simHooks0 dsState).1 1 0).damage = 4 ∧
    (Sim.bfGet (Sim.afterPasses simHooks0 dsState).1 0 0).damage = 3 ∧
    (Sim.resolve_combat_damage simHooks0 dsState).battlefield = ([], []) ∧
    ((pget (Sim.resolve_combat_damage simHooks0 dsState).graveyard 0).map
      (fun c => (c.name, c.damage))) = [("DS", 3)] ∧
    ((pget (Sim.resolve_combat_damage simHooks0 dsState).graveyard 1).map
      (fun c => (c.name, c.damage))) = [("V", 4)] ∧
    (Sim.resolve_combat_damage simHooks0 dsState).life = (20, 20) ∧
    (Sim.resolve_combat_damage simHooks0 dsState).game_over = false := by
  decide

/-- C1: the automatic-phase branch of `minimax` recurses with the caller's
alpha/beta window, not a maximal one, and still stores the result with flag
exact: from the same state and the same preloaded transposition table, the
full window caches -1 exact at the combat-damage key while the window
`(0, 2)` caches 0 exact at the same key, so the cached value depends on the
caller's window. -/
theorem minimax_automatic_phase_cache_window_dependent :
    autoBugState.phase = "combat_damage" ∧
    (Solver.minimax autoBugHooks 10 autoBugState 0 autoBugMemo (-2) 2 []).val = -1 ∧
    lookupA (Solver.minimax autoBugHooks 10 autoBugState 0 autoBugMemo (-2) 2 []).memo
      autoBugKey = some ((-1 : Int), "exact") ∧
    (Solver.minimax autoBugHooks 10 autoBugState 0 autoBugMemo 0 2 []).val = 0 ∧
    lookupA (Solver.minimax autoBugHooks 10 autoBugState 0 autoBugMemo 0 2 []).memo
      autoBugKey = some ((0 : Int), "exact") := by
  decide

/-- C3 counterexample: with the win triple `(5, 5, 1)` stored before the
loss triple `(5, 5, -1)` under one board key, the query at life `(5, 5)`
returns 1 even though a stored loss triple dominates the position, so the
claim's loss clause fails. -/
theorem check_dominance_claim_counterexample :
    ((5, 5, (-1 : Int)) ∈ conflictTriples ∧ (5 : Int) ≤ 5 ∧ (5 : Int) ≤ 5) ∧
    check_dominance conflictDom 0 (5, 5) 0 = some 1 ∧
    ¬ check_dominance conflictDom 0 (5, 5) 0 = some (-1) := by
  decide

/-- The triple scan returns the first match in storage order: each returned
value is justified by a stored triple, and the scan is inconclusive exactly
when no stored triple satisfies either dominance condition. -/
theorem dominanceScanList_spec (my opp : Int) (ts : List (Int × Int × Int)) :
    (dominanceScanList my opp ts = some (-1) →
      ∃ m o, (m, o, (-1 : Int)) ∈ ts ∧ my ≤ m ∧ o ≤ opp) ∧
    (dominanceScanList my opp ts = some 1 →
      ∃ m o, (m, o, (1 : Int)) ∈ ts ∧ m ≤ my ∧ opp ≤ o) ∧
    (dominanceScanList my opp ts = none ↔
      ∀ m o r, (m, o, r) ∈ ts →
        ¬(my ≤ m ∧ o ≤ opp ∧ r = -1) ∧ ¬(m ≤ my ∧ opp ≤ o ∧ r = 1)) := by
  induction ts with
  | nil =>
    refine ⟨by simp [dominanceScanList], by simp [dominanceScanList], ?_⟩
    simp [dominanceScanList]
  | cons t rest ih =>
    obtain ⟨m0, o0, r0⟩ := t
    by_cases h1 : my ≤ m0 ∧ o0 ≤ opp ∧ r0 = -1
    · refine ⟨fun _ => ⟨m0, o0, ?_, h1.1, h1.2.1⟩, fun h => ?_, ?_⟩
      · rw [← h1.2.2]; exact List.mem_cons_self _ _
      · rw [dominanceScanList, if_pos h1] at h; simp at h
      · rw [dominanceScanList, if_pos h1]
        constructor
        · intro h; simp at h
        · intro hall
          exact absurd h1 (hall m0 o0 r0 (List.mem_cons_self _ _)).1
    · by_cases h2 : m0 ≤ my ∧ opp ≤ o0 ∧ r0 = 1
      · refine ⟨fun h => ?_, fun _ => ⟨m0, o0, ?_, h2.1, h2.2.1⟩, ?_⟩
        · rw [dominanceScanList, if_neg h1, if_pos h2] at h; simp at h
        · rw [← h2.2.2]; exact List.mem_cons_self _ _
        · rw [dominanceScanList, if_neg h1, if_pos h2]
          constructor
          · intro h; simp at h
          · intro hall
            exact absurd h2 (hall m0 o0 r0 (List.mem_cons_self _ _)).2
      · rw [dominanceScanList, if_neg h1, if_neg h2]
        refine ⟨fun h => ?_, fun h => ?_, ?_⟩
        · obtain ⟨m, o, hm, hle1, hle2⟩ := ih.1 h
          exact ⟨m, o, List.mem_cons_of_mem _ hm, hle1, hle2⟩
        · obtain ⟨m, o, hm, hle1, hle2⟩ := ih.2.1 h
          exact ⟨m, o, List.mem_cons_of_mem _ hm, hle1, hle2⟩
        · rw [ih.2.2]
          constructor
          · intro hrest m o r hm
            rcases List.mem_cons.mp hm with heq | hmem
            · obtain ⟨em, eo, er⟩ : m = m0 ∧ o = o0 ∧ r = r0 := by
                simpa [Prod.ext_iff] using heq
              subst em; subst eo; subst er
              exact ⟨h1, h2⟩
            · exact hrest m o r hmem
          · intro hall m o r hm
            exact hall m o r (List.mem_cons_of_mem _ hm)

/-- C3 (amended): for every dominance table, board key, life pair and
player, the query returns the result of the first stored triple in storage
order that satisfies its dominance condition — so a returned loss or win is
always justified by a stored triple of the matching kind, and the query is
inconclusive exactly when no stored triple satisfies either condition.  The
claim's stronger reading, that a stored loss triple forces the answer -1,
fails when a win triple precedes it (see the counterexample). -/
theorem check_dominance_first_match_spec {K : Type} [DecidableEq K]
    (dominance : List (K × List (Int × Int × Int))) (board_key : K)
    (life : Int × Int) (player : Nat) :
    (check_dominance dominance board_key life player = some (-1) →
      ∃ m o, (m, o, (-1 : Int)) ∈ (lookupA dominance board_key).getD [] ∧
        pget life player ≤ m ∧ o ≤ pget life (1 - player)) ∧
    (check_dominance dominance board_key life player = some 1 →
      ∃ m o, (m, o, (1 : Int)) ∈ (lookupA dominance board_key).getD [] ∧
        m ≤ pget life player ∧ pget life (1 - player) ≤ o) ∧
    (check_dominance dominance board_key life player = none ↔
      ∀ m o r, (m, o, r) ∈ (lookupA dominance board_key).getD [] →
        ¬(pget life player ≤ m ∧ o ≤ pget life (1 - player) ∧ r = -1) ∧
        ¬(m ≤ pget life player ∧ pget life (1 - player) ≤ o ∧ r = 1)) := by
  unfold check_dominance
  cases h : lookupA dominance board_key with
  | none => simp
  | some ts =>
    simpa using dominanceScanList_spec (pget life player) (pget life (1 - player)) ts

/-- With the first-strike step unable to end the game, the resolver reaches
the regular damage step: `resolve_combat_damage` equals `resolveAfterFS` on
the pre-pass data. -/
theorem sim_resolve_eq_afterFS (hooks : Sim.Hooks) (s : Sim.GameState)
    (hfs : Sim.anyFirstStrike s (Sim.combatAtts s) = true →
      0 < pget (Sim.firstStrikePass hooks s (Sim.combatAtts s)).1.life 0 ∧
      0 < pget (Sim.firstStrikePass hooks s (Sim.combatAtts s)).1.life 1) :
    Sim.resolve_combat_damage hooks s =
      Sim.resolveAfterFS hooks (Sim.combatAtts s) (Sim.passPre hooks s) := by
  unfold Sim.resolve_combat_damage Sim.passPre
  by_cases h : Sim.anyFirstStrike s (Sim.combatAtts s) = true
  · obtain ⟨h0, h1⟩ := hfs h
    simp only [h, if_true]
    rw [if_neg (by omega), if_neg (by omega)]
  · simp only [Bool.not_eq_true] at h
    simp only [h, Bool.false_eq_true, if_false]

/-- The regular-pass checkpoint stops the resolver when player 0 is at or
below zero life: player 1 wins. -/
theorem sim_afterFS_stop0 (hooks : Sim.Hooks) (atts : List Nat)
    (pre : Sim.GameState × List Nat × List Nat)
    (h0 : pget (Sim.regularPass hooks pre atts).1.life 0 ≤ 0) :
    Sim.resolveAfterFS hooks atts pre =
      Sim.gameOverStop (Sim.regularPass hooks pre atts).1 1 := by
  unfold Sim.resolveAfterFS
  rw [if_pos h0]

/-- The regular-pass checkpoint stops the resolver when only player 1 is at
or below zero life: player 0 wins. -/
theorem sim_afterFS_stop1 (hooks : Sim.Hooks) (atts : List Nat)
    (pre : Sim.GameState × List Nat × List Nat)
    (h0 : ¬ pget (Sim.regularPass hooks pre atts).1.life 0 ≤ 0)
    (h1 : pget (Sim.regularPass hooks pre atts).1.life 1 ≤ 0) :
    Sim.resolveAfterFS hooks atts pre =
      Sim.gameOverStop (Sim.regularPass hooks pre atts).1 0 := by
  unfold Sim.resolveAfterFS
  rw [if_neg h0, if_pos h1]

/-- When the first-strike pass drops player 0 to zero or below, the
resolver stops at the first-strike checkpoint: player 1 wins. -/
theorem sim_resolve_fs_stop0 (hooks : Sim.Hooks) (s : Sim.GameState)
    (hany : Sim.anyFirstStrike s (Sim.combatAtts s) = true)
    (h0 : pget (Sim.firstStrikePass hooks s (Sim.combatAtts s)).1.life 0 ≤ 0) :
    Sim.resolve_combat_damage hooks s =
      Sim.gameOverStop (Sim.firstStrikePass hooks s (Sim.combatAtts s)).1 1 := by
  unfold Sim.resolve_combat_damage
  simp only [hany, if_true]
  rw [if_pos h0]

/-- When the first-strike pass leaves player 0 above zero but drops
player 1 to zero or below, the resolver stops at the first-strike
checkpoint: player 0 wins. -/
theorem sim_resolve_fs_stop1 (hooks : Sim.Hooks) (s : Sim.GameState)
    (hany : Sim.anyFirstStrike s (Sim.combatAtts s) = true)
    (h0 : ¬ pget (Sim.firstStrikePass hooks s (Sim.combatAtts s)).1.life 0 ≤ 0)
    (h1 : pget (Sim.firstStrikePass hooks s (Sim.combatAtts s)).1.life 1 ≤ 0) :
    Sim.resolve_combat_damage hooks s =
      Sim.gameOverStop (Sim.firstStrikePass hooks s (Sim.combatAtts s)).1 0 := by
  unfold Sim.resolve_combat_damage
  simp only [hany, if_true]
  rw [if_neg h0, if_pos h1]

/-- C4: after either damage pass — the first-strike checkpoint (lines
82-92) or the regular-pass checkpoint (lines 131-142) — a life total at or
below zero makes `resolve_combat_damage` return right there: game over,
the winner decided by testing player 0's life first, with the battlefield
and graveyards exactly as the damage pass left them, so no dead creature is
moved to a graveyard and no death trigger runs. -/
theorem resolve_combat_damage_life_check_before_deaths
    (hooks : Sim.Hooks) (s : Sim.GameState) :
    (Sim.anyFirstStrike s (Sim.combatAtts s) = true →
      pget (Sim.firstStrikePass hooks s (Sim.combatAtts s)).1.life 0 ≤ 0 ∨
        pget (Sim.firstStrikePass hooks s (Sim.combatAtts s)).1.life 1 ≤ 0 →
      Sim.resolve_combat_damage hooks s =
        Sim.gameOverStop (Sim.firstStrikePass hooks s (Sim.combatAtts s)).1
          (if pget (Sim.firstStrikePass hooks s (Sim.combatAtts s)).1.life 0 ≤ 0
           then 1 else 0) ∧
      (Sim.resolve_combat_damage hooks s).battlefield =
        (Sim.firstStrikePass hooks s (Sim.combatAtts s)).1.battlefield ∧
      (Sim.resolve_combat_damage hooks s).graveyard =
        (Sim.firstStrikePass hooks s (Sim.combatAtts s)).1.graveyard ∧
      (Sim.resolve_combat_damage hooks s).game_over = true) ∧
    ((Sim.anyFirstStrike s (Sim.combatAtts s) = true →
        0 < pget (Sim.firstStrikePass hooks s (Sim.combatAtts s)).1.life 0 ∧
        0 < pget (Sim.firstStrikePass hooks s (Sim.combatAtts s)).1.life 1) →
      pget (Sim.afterPasses hooks s).1.life 0 ≤ 0 ∨
        pget (Sim.afterPasses hooks s).1.life 1 ≤ 0 →
      Sim.resolve_combat_damage hooks s =
        Sim.gameOverStop (Sim.afterPasses hooks s).1
          (if pget (Sim.afterPasses hooks s).1.life 0 ≤ 0 then 1 else 0) ∧
      (Sim.resolve_combat_damage hooks s).battlefield =
        (Sim.afterPasses hooks s).1.battlefield ∧
      (Sim.resolve_combat_damage hooks s).graveyard =
        (Sim.afterPasses hooks s).1.graveyard ∧
      (Sim.resolve_combat_damage hooks s).game_over = true) := by
  constructor
  · intro hany hlife
    by_cases h0 : pget (Sim.firstStrikePass hooks s (Sim.combatAtts s)).1.life 0 ≤ 0
    · rw [sim_resolve_fs_stop0 hooks s hany h0, if_pos h0]
      exact ⟨rfl, rfl, rfl, rfl⟩
    · rcases hlife with h | h1
      · exact absurd h h0
      · rw [sim_resolve_fs_stop1 hooks s hany h0 h1, if_neg h0]
        exact ⟨rfl, rfl, rfl, rfl⟩
  · intro hfs hlife
    have he := sim_resolve_eq_afterFS hooks s hfs
    unfold Sim.afterPasses at hlife ⊢
    by_cases h0 : pget (Sim.regularPass hooks (Sim.passPre hooks s) (Sim.combatAtts s)).1.life 0 ≤ 0
    · rw [he, if_pos h0, sim_afterFS_stop0 hooks (Sim.combatAtts s) (Sim.passPre hooks s) h0]
      exact ⟨rfl, rfl, rfl, rfl⟩
    · rcases hlife with h | h1
      · exact absurd h h0
      · rw [he, if_neg h0, sim_afterFS_stop1 hooks (Sim.combatAtts s) (Sim.passPre hooks s) h0 h1]
        exact ⟨rfl, rfl, rfl, rfl⟩

/-- Witness for C4, exercising both checkpoints: the unblocked first
striker drops the 2-life defender below zero already in the first-strike
pass, and the unblocked vanilla 3/3 does so in the regular pass; both times
the resolver stops with no deaths processed. -/
theorem resolve_combat_damage_life_check_before_deaths_witness :
    Sim.anyFirstStrike fsLethalState (Sim.combatAtts fsLethalState) = true ∧
    (pget (Sim.firstStrikePass simHooks0 fsLethalState (Sim.combatAtts fsLethalState)).1.life 0 ≤ 0 ∨
      pget (Sim.firstStrikePass simHooks0 fsLethalState (Sim.combatAtts fsLethalState)).1.life 1 ≤ 0) ∧
    (Sim.resolve_combat_damage simHooks0 fsLethalState =
        Sim.gameOverStop (Sim.firstStrikePass simHooks0 fsLethalState (Sim.combatAtts fsLethalState)).1
          (if pget (Sim.firstStrikePass simHooks0 fsLethalState (Sim.combatAtts fsLethalState)).1.life 0 ≤ 0
           then 1 else 0) ∧
      (Sim.resolve_combat_damage simHooks0 fsLethalState).battlefield =
        (Sim.firstStrikePass simHooks0 fsLethalState (Sim.combatAtts fsLethalState)).1.battlefield ∧
      (Sim.resolve_combat_damage simHooks0 fsLethalState).graveyard =
        (Sim.firstStrikePass simHooks0 fsLethalState (Sim.combatAtts fsLethalState)).1.graveyard ∧
      (Sim.resolve_combat_damage simHooks0 fsLethalState).game_over = true) ∧
    (Sim.anyFirstStrike lethalState (Sim.combatAtts lethalState) = true →
      0 < pget (Sim.firstStrikePass simHooks0 lethalState (Sim.combatAtts lethalState)).1.life 0 ∧
      0 < pget (Sim.firstStrikePass simHooks0 lethalState (Sim.combatAtts lethalState)).1.life 1) ∧
    (pget (Sim.afterPasses simHooks0 lethalState).1.life 0 ≤ 0 ∨
      pget (Sim.afterPasses simHooks0 lethalState).1.life 1 ≤ 0) ∧
    (Sim.resolve_combat_damage simHooks0 lethalState =
        Sim.gameOverStop (Sim.afterPasses simHooks0 lethalState).1
          (if pget (Sim.afterPasses simHooks0 lethalState).1.life 0 ≤ 0 then 1 else 0) ∧
      (Sim.resolve_combat_damage simHooks0 lethalState).battlefield =
        (Sim.afterPasses simHooks0 lethalState).1.battlefield ∧
      (Sim.resolve_combat_damage simHooks0 lethalState).graveyard =
        (Sim.afterPasses simHooks0 lethalState).1.graveyard ∧
      (Sim.resolve_combat_damage simHooks0 lethalState).game_over = true) :=
  ⟨by decide, by decide,
    (resolve_combat_damage_life_check_before_deaths simHooks0 fsLethalState).1
      (by decide) (by decide),
    by decide, by decide,
    (resolve_combat_damage_life_check_before_deaths simHooks0 lethalState).2
      (by decide) (by decide)⟩

/-- C9: when both life totals are simultaneously at or below zero after a
damage pass — at the first-strike checkpoint or at the regular-pass
checkpoint — the resolver declares player 1 the winner, because player 0's
life is tested first; it never reports a draw. -/
theorem simultaneous_lethal_combat_winner
    (hooks : Sim.Hooks) (s : Sim.GameState) :
    (Sim.anyFirstStrike s (Sim.combatAtts s) = true →
      pget (Sim.firstStrikePass hooks s (Sim.combatAtts s)).1.life 0 ≤ 0 →
      pget (Sim.firstStrikePass hooks s (Sim.combatAtts s)).1.life 1 ≤ 0 →
      Sim.resolve_combat_damage hooks s =
        Sim.gameOverStop (Sim.firstStrikePass hooks s (Sim.combatAtts s)).1 1 ∧
      (Sim.resolve_combat_damage hooks s).winner = some 1 ∧
      (Sim.resolve_combat_damage hooks s).game_over = true ∧
      ¬ (Sim.resolve_combat_damage hooks s).winner = none) ∧
    ((Sim.anyFirstStrike s (Sim.combatAtts s) = true →
        0 < pget (Sim.firstStrikePass hooks s (Sim.combatAtts s)).1.life 0 ∧
        0 < pget (Sim.firstStrikePass hooks s (Sim.combatAtts s)).1.life 1) →
      pget (Sim.afterPasses hooks s).1.life 0 ≤ 0 →
      pget (Sim.afterPasses hooks s).1.life 1 ≤ 0 →
      Sim.resolve_combat_damage hooks s = Sim.gameOverStop (Sim.afterPasses hooks s).1 1 ∧
      (Sim.resolve_combat_damage hooks s).winner = some 1 ∧
      (Sim.resolve_combat_damage hooks s).game_over = true ∧
      ¬ (Sim.resolve_combat_damage hooks s).winner = none) := by
  constructor
  · intro hany h0 _h1
    rw [sim_resolve_fs_stop0 hooks s hany h0]
    exact ⟨rfl, rfl, rfl, by simp [Sim.gameOverStop]⟩
  · intro hfs h0 _h1
    have he := sim_resolve_eq_afterFS hooks s hfs
    unfold Sim.afterPasses at h0 ⊢
    rw [he, sim_afterFS_stop0 hooks (Sim.combatAtts s) (Sim.passPre hooks s) h0]
    exact ⟨rfl, rfl, rfl, by simp [Sim.gameOverStop]⟩

/-- Witness for C9, exercising both checkpoints: with the attacking player
already at 0 life, an unblocked first striker (respectively a vanilla 2/2)
drops the defender to 0 in the first-strike (respectively regular) pass,
and player 1 is declared the winner both times. -/
theorem simultaneous_lethal_combat_winner_witness :
    Sim.anyFirstStrike fsDoubleKOState (Sim.combatAtts fsDoubleKOState) = true ∧
    pget (Sim.firstStrikePass simHooks0 fsDoubleKOState (Sim.combatAtts fsDoubleKOState)).1.life 0 ≤ 0 ∧
    pget (Sim.firstStrikePass simHooks0 fsDoubleKOState (Sim.combatAtts fsDoubleKOState)).1.life 1 ≤ 0 ∧
    (Sim.resolve_combat_damage simHooks0 fsDoubleKOState =
        Sim.gameOverStop
          (Sim.firstStrikePass simHooks0 fsDoubleKOState (Sim.combatAtts fsDoubleKOState)).1 1 ∧
      (Sim.resolve_combat_damage simHooks0 fsDoubleKOState).winner = some 1 ∧
      (Sim.resolve_combat_damage simHooks0 fsDoubleKOState).game_over = true ∧
      ¬ (Sim.resolve_combat_damage simHooks0 fsDoubleKOState).winner = none) ∧
    (Sim.anyFirstStrike doubleKOState (Sim.combatAtts doubleKOState) = true →
      0 < pget (Sim.firstStrikePass simHooks0 doubleKOState (Sim.combatAtts doubleKOState)).1.life 0 ∧
      0 < pget (Sim.firstStrikePass simHooks0 doubleKOState (Sim.combatAtts doubleKOState)).1.life 1) ∧
    pget (Sim.afterPasses simHooks0 doubleKOState).1.life 0 ≤ 0 ∧
    pget (Sim.afterPasses simHooks0 doubleKOState).1.life 1 ≤ 0 ∧
    (Sim.resolve_combat_damage simHooks0 doubleKOState =
        Sim.gameOverStop (Sim.afterPasses simHooks0 doubleKOState).1 1 ∧
      (Sim.resolve_combat_damage simHooks0 doubleKOState).winner = some 1 ∧
      (Sim.resolve_combat_damage simHooks0 doubleKOState).game_over = true ∧
      ¬ (Sim.resolve_combat_damage simHooks0 doubleKOState).winner = none) :=
  ⟨by decide, by decide, by decide,
    (simultaneous_lethal_combat_winner simHooks0 fsDoubleKOState).1
      (by decide) (by decide) (by decide),
    by decide, by decide, by decide,
    (simultaneous_lethal_combat_winner simHooks0 doubleKOState).2
      (by decide) (by decide) (by decide)⟩

/-- The closing phase transition touches only the phase field. -/
theorem upkeepPhase_fields (ns : Sim.GameState) :
    (Sim.upkeepPhase ns).stale_turns = ns.stale_turns ∧
    (Sim.upkeepPhase ns).prev_main_sig = ns.prev_main_sig ∧
    (Sim.upkeepPhase ns).game_over = ns.game_over ∧
    (Sim.upkeepPhase ns).winner = ns.winner := by
  unfold Sim.upkeepPhase
  split
  · exact ⟨rfl, rfl, rfl, rfl⟩
  · exact ⟨rfl, rfl, rfl, rfl⟩

/-- The stalemate bookkeeping: counter increment on a signature match and
reset otherwise, signature recorded, draw declared at ten. -/
theorem upkeepStale_fields (ns : Sim.GameState) (cur : Sim.UpkeepSig) :
    (Sim.upkeepStale ns cur).stale_turns =
      (if ns.prev_main_sig = some cur then ns.stale_turns + 1 else 0) ∧
    (Sim.upkeepStale ns cur).prev_main_sig = some cur ∧
    (10 ≤ (Sim.upkeepStale ns cur).stale_turns →
      (Sim.upkeepStale ns cur).game_over = true ∧ (Sim.upkeepStale ns cur).winner = none) := by
  by_cases h : ns.prev_main_sig = some cur
  · by_cases h10 : 10 ≤ ns.stale_turns + 1
    · simp [Sim.upkeepStale, h, h10]
    · simp [Sim.upkeepStale, h, h10]
  · by_cases h10 : (10 : Int) ≤ 0
    · exact absurd h10 (by norm_num)
    · simp [Sim.upkeepStale, h, h10]

/-- C6: `upkeep` compares the board-only signature of the post-trigger
state with the one recorded at the previous upkeep — incrementing the stale
counter on a match and resetting it to 0 otherwise — records the new
signature, and whenever the counter reaches 10 declares the game over as a
draw. -/
theorem upkeep_stalemate_rule (hooks : Sim.Hooks) (s : Sim.GameState) :
    (Sim.upkeep hooks s).stale_turns =
      (if (Sim.upkeepTriggered hooks s).prev_main_sig =
          some (Sim.upkeepCurrentSig hooks (Sim.upkeepTriggered hooks s))
       then (Sim.upkeepTriggered hooks s).stale_turns + 1 else 0) ∧
    (Sim.upkeep hooks s).prev_main_sig =
      some (Sim.upkeepCurrentSig hooks (Sim.upkeepTriggered hooks s)) ∧
    (10 ≤ (Sim.upkeep hooks s).stale_turns →
      (Sim.upkeep hooks s).game_over = true ∧ (Sim.upkeep hooks s).winner = none) := by
  obtain ⟨p1, p2, p3, p4⟩ := upkeepPhase_fields
    (Sim.upkeepStale (Sim.upkeepTriggered hooks s)
      (Sim.upkeepCurrentSig hooks (Sim.upkeepTriggered hooks s)))
  obtain ⟨q1, q2, q3⟩ := upkeepStale_fields (Sim.upkeepTriggered hooks s)
    (Sim.upkeepCurrentSig hooks (Sim.upkeepTriggered hooks s))
  have hu : Sim.upkeep hooks s =
      Sim.upkeepPhase (Sim.upkeepStale (Sim.upkeepTriggered hooks s)
        (Sim.upkeepCurrentSig hooks (Sim.upkeepTriggered hooks s))) := rfl
  refine ⟨?_, ?_, fun h => ?_⟩
  · rw [hu, p1, q1]
  · rw [hu, p2, q2]
  · rw [hu] at h ⊢
    rw [p1] at h
    rw [p3, p4]
    exact q3 h

/-- C10: `draw` moves no card when the turn counter is 1 and the active
player is player 0 (the player going first skips the first draw); in every
other case it pops exactly the top library card of the active player into
that player's hand, and transitions to main phase either way. -/
theorem draw_phase_first_turn_skip (s : Sim.GameState) :
    (s.turn = 1 ∧ s.active_player = 0 → Sim.draw s = some { s with phase := "main1" }) ∧
    (¬(s.turn = 1 ∧ s.active_player = 0) →
      (pget s.library s.active_player = [] → Sim.draw s = none) ∧
      (∀ c rest, pget s.library s.active_player = c :: rest →
        Sim.draw s = some { s with
          library := pset s.library s.active_player rest,
          hands := pset s.hands s.active_player (pget s.hands s.active_player ++ [c]),
          phase := "main1" })) := by
  refine ⟨fun h => ?_, fun h => ⟨fun hl => ?_, fun c rest hl => ?_⟩⟩
  · unfold Sim.draw
    rw [if_pos h]
  · unfold Sim.draw
    rw [if_neg h, hl]
  · unfold Sim.draw
    rw [if_neg h, hl]

/-- C5: at a choice node — not game over, no usable transposition entry, no
dominance hit, not an automatic phase, at least one action — `minimax` runs
the maximizing loop exactly when the claim's decision-maker condition
holds: in `combat_block` when the non-active player is the perspective
player, otherwise when the active player is; in every other case it runs
the minimizing loop.  Either way the loop's best score goes through the
classify-and-store block. -/
theorem minimax_decision_maker_rule (hooks : Solver.Hooks) (fuel : Nat)
    (s : Solver.GameState) (player : Nat) (memo : Solver.Memo)
    (alpha beta : Int) (dom : Solver.Dom)
    (hgo : s.game_over = false)
    (hmemo : Solver.memoUsable memo (Solver.signature s, s.phase, player) alpha beta = none)
    (hdom : Solver.dominanceCheck dom (Solver.board_signature s, s.phase, player)
      s.life player = none)
    (hcd : s.phase ≠ "combat_damage")
    (het : s.phase ≠ "end_turn")
    (hact : Solver.get_available_actions hooks s ≠ []) :
    Solver.minimax hooks (fuel + 1) s player memo alpha beta dom =
      (if (if s.phase = "combat_block" then 1 - s.active_player = player
           else s.active_player = player) then
        Solver.classifyStore (Solver.signature s, s.phase, player)
          (Solver.board_signature s, s.phase, player)
          (pget s.life player) (pget s.life (1 - player))
          (Solver.maxLoop (fun ns m a d => Solver.minimax hooks fuel ns player m a beta d)
            s beta (Solver.get_available_actions hooks s)
            ⟨-2, alpha, memo, dom, [], false⟩).best
          alpha beta beta
          (Solver.maxLoop (fun ns m a d => Solver.minimax hooks fuel ns player m a beta d)
            s beta (Solver.get_available_actions hooks s)
            ⟨-2, alpha, memo, dom, [], false⟩).memo
          (Solver.maxLoop (fun ns m a d => Solver.minimax hooks fuel ns player m a beta d)
            s beta (Solver.get_available_actions hooks s)
            ⟨-2, alpha, memo, dom, [], false⟩).dom
          (Solver.maxLoop (fun ns m a d => Solver.minimax hooks fuel ns player m a beta d)
            s beta (Solver.get_available_actions hooks s)
            ⟨-2, alpha, memo, dom, [], false⟩).log
      else
        Solver.classifyStore (Solver.signature s, s.phase, player)
          (Solver.board_signature s, s.phase, player)
          (pget s.life player) (pget s.life (1 - player))
          (Solver.minLoop (fun ns m b d => Solver.minimax hooks fuel ns player m alpha b d)
            s alpha (Solver.get_available_actions hooks s)
            ⟨2, beta, memo, dom, [], false⟩).best
          alpha beta
          (Solver.minLoop (fun ns m b d => Solver.minimax hooks fuel ns player m alpha b d)
            s alpha (Solver.get_available_actions hooks s)
            ⟨2, beta, memo, dom, [], false⟩).bound
          (Solver.minLoop (fun ns m b d => Solver.minimax hooks fuel ns player m alpha b d)
            s alpha (Solver.get_available_actions hooks s)
            ⟨2, beta, memo, dom, [], false⟩).memo
          (Solver.minLoop (fun ns m b d => Solver.minimax hooks fuel ns player m alpha b d)
            s alpha (Solver.get_available_actions hooks s)
            ⟨2, beta, memo, dom, [], false⟩).dom
          (Solver.minLoop (fun ns m b d => Solver.minimax hooks fuel ns player m alpha b d)
            s alpha (Solver.get_available_actions hooks s)
            ⟨2, beta, memo, dom, [], false⟩).log) := by
  have hact' : (Solver.get_available_actions hooks s).isEmpty = false := by
    cases hx : Solver.get_available_actions hooks s
    · exact absurd hx hact
    · rfl
  simp only [Solver.minimax, hgo, Bool.false_eq_true, if_false, hmemo, hdom]
  rw [if_neg hcd, if_neg het, hact']
  simp only [Bool.false_eq_true, if_false]
  by_cases hcb : s.phase = "combat_block"
  · simp only [hcb, if_true]
  · simp only [hcb, if_false]

/-- Witness for C5 at the fresh main-phase state: player 0 is active, so
the search maximizes for perspective player 0. -/
theorem minimax_decision_maker_rule_witness :
    ({} : Solver.GameState).game_over = false ∧
    Solver.memoUsable []
      (Solver.signature {}, ({} : Solver.GameState).phase, 0) (-2) 2 = none ∧
    Solver.dominanceCheck []
      (Solver.board_signature {}, ({} : Solver.GameState).phase, 0)
      ({} : Solver.GameState).life 0 = none ∧
    ({} : Solver.GameState).phase ≠ "combat_damage" ∧
    ({} : Solver.GameState).phase ≠ "end_turn" ∧
    Solver.get_available_actions solverHooks0 {} ≠ [] ∧
    Solver.minimax solverHooks0 (3 + 1) {} 0 [] (-2) 2 [] =
      (if (if ({} : Solver.GameState).phase = "combat_block" then
            1 - ({} : Solver.GameState).active_player = 0
          else ({} : Solver.GameState).active_player = 0) then
        Solver.classifyStore
          (Solver.signature {}, ({} : Solver.GameState).phase, 0)
          (Solver.board_signature {}, ({} : Solver.GameState).phase, 0)
          (pget ({} : Solver.GameState).life 0) (pget ({} : Solver.GameState).life (1 - 0))
          (Solver.maxLoop (fun ns m a d => Solver.minimax solverHooks0 3 ns 0 m a 2 d)
            {} 2 (Solver.get_available_actions solverHooks0 {})
            ⟨-2, -2, [], [], [], false⟩).best
          (-2) 2 2
          (Solver.maxLoop (fun ns m a d => Solver.minimax solverHooks0 3 ns 0 m a 2 d)
            {} 2 (Solver.get_available_actions solverHooks0 {})
            ⟨-2, -2, [], [], [], false⟩).memo
          (Solver.maxLoop (fun ns m a d => Solver.minimax solverHooks0 3 ns 0 m a 2 d)
            {} 2 (Solver.get_available_actions solverHooks0 {})
            ⟨-2, -2, [], [], [], false⟩).dom
          (Solver.maxLoop (fun ns m a d => Solver.minimax solverHooks0 3 ns 0 m a 2 d)
            {} 2 (Solver.get_available_actions solverHooks0 {})
            ⟨-2, -2, [], [], [], false⟩).log
      else
        Solver.classifyStore
          (Solver.signature {}, ({} : Solver.GameState).phase, 0)
          (Solver.board_signature {}, ({} : Solver.GameState).phase, 0)
          (pget ({} : Solver.GameState).life 0) (pget ({} : Solver.GameState).life (1 - 0))
          (Solver.minLoop (fun ns m b d => Solver.minimax solverHooks0 3 ns 0 m (-2) b d)
            {} (-2) (Solver.get_available_actions solverHooks0 {})
            ⟨2, 2, [], [], [], false⟩).best
          (-2) 2
          (Solver.minLoop (fun ns m b d => Solver.minimax solverHooks0 3 ns 0 m (-2) b d)
            {} (-2) (Solver.get_available_actions solverHooks0 {})
            ⟨2, 2, [], [], [], false⟩).bound
          (Solver.minLoop (fun ns m b d => Solver.minimax solverHooks0 3 ns 0 m (-2) b d)
            {} (-2) (Solver.get_available_actions solverHooks0 {})
            ⟨2, 2, [], [], [], false⟩).memo
          (Solver.minLoop (fun ns m b d => Solver.minimax solverHooks0 3 ns 0 m (-2) b d)
            {} (-2) (Solver.get_available_actions solverHooks0 {})
            ⟨2, 2, [], [], [], false⟩).dom
          (Solver.minLoop (fun ns m b d => Solver.minimax solverHooks0 3 ns 0 m (-2) b d)
            {} (-2) (Solver.get_available_actions solverHooks0 {})
            ⟨2, 2, [], [], [], false⟩).log) :=
  ⟨rfl, rfl, rfl, by decide, by decide, fun h => List.noConfusion h,
    minimax_decision_maker_rule solverHooks0 3 {} 0 [] (-2) 2 []
      rfl rfl rfl (by decide) (by decide) (fun h => List.noConfusion h)⟩

/-- An automatic-phase store keeps every ghost event good and stays
replayable: the appended event performs no dominance append. -/
theorem autoStore_props (key : Solver.Key) (bkey : Solver.BKey) (ml ol : Int)
    (r : Solver.SearchRes) (alpha beta : Int) (dom₀ : Solver.Dom)
    (h1 : ∀ e ∈ r.log, Solver.GoodEvent e)
    (h2 : r.dom = r.log.foldl Solver.applyDomEvent dom₀) :
    (∀ e ∈ (Solver.autoStore key bkey ml ol r alpha beta).log, Solver.GoodEvent e) ∧
    (Solver.autoStore key bkey ml ol r alpha beta).dom =
      (Solver.autoStore key bkey ml ol r alpha beta).log.foldl Solver.applyDomEvent dom₀ := by
  unfold Solver.autoStore
  constructor
  · intro e he
    rcases List.mem_append.mp he with h | h
    · exact h1 e h
    · rw [List.mem_singleton] at h
      subst h
      intro hds
      simp at hds
  · rw [List.foldl_append, ← h2]
    simp [Solver.applyDomEvent]

/-- The classify-and-store block keeps every ghost event good — its own
event appends to the dominance table only in the exact branch, where the
best score lies strictly inside the original window — and stays
replayable. -/
theorem classifyStore_props (key : Solver.Key) (bkey : Solver.BKey)
    (ml ol best oa ob sb : Int) (memo : Solver.Memo) (dom : Solver.Dom)
    (log : List Solver.StoreEvent) (dom₀ : Solver.Dom)
    (hsb : sb ≤ ob)
    (h1 : ∀ e ∈ log, Solver.GoodEvent e)
    (h2 : dom = log.foldl Solver.applyDomEvent dom₀) :
    (∀ e ∈ (Solver.classifyStore key bkey ml ol best oa ob sb memo dom log).log,
      Solver.GoodEvent e) ∧
    (Solver.classifyStore key bkey ml ol best oa ob sb memo dom log).dom =
      (Solver.classifyStore key bkey ml ol best oa ob sb memo dom log).log.foldl
        Solver.applyDomEvent dom₀ := by
  unfold Solver.classifyStore
  by_cases hup : best ≤ oa
  · rw [if_pos hup]
    refine ⟨?_, ?_⟩
    · intro e he
      rcases List.mem_append.mp he with h | h
      · exact h1 e h
      · rw [List.mem_singleton] at h
        subst h
        intro hds
        simp at hds
    · rw [List.foldl_append, ← h2]
      simp [Solver.applyDomEvent]
  · rw [if_neg hup]
    by_cases hlo : sb ≤ best
    · rw [if_pos hlo]
      refine ⟨?_, ?_⟩
      · intro e he
        rcases List.mem_append.mp he with h | h
        · exact h1 e h
        · rw [List.mem_singleton] at h
          subst h
          intro hds
          simp at hds
      · rw [List.foldl_append, ← h2]
        simp [Solver.applyDomEvent]
    · rw [if_neg hlo]
      refine ⟨?_, ?_⟩
      · intro e he
        rcases List.mem_append.mp he with h | h
        · exact h1 e h
        · rw [List.mem_singleton] at h
          subst h
          intro _
          refine ⟨rfl, ?_, ?_⟩
          · show oa < best
            omega
          · show best < ob
            omega
      · rw [List.foldl_append, ← h2]
        simp [Solver.applyDomEvent]

/-- The maximizing loop preserves goodness and replayability of the ghost
log, given that every child call does. -/
theorem maxLoop_props
    (child : Solver.GameState → Solver.Memo → Int → Solver.Dom → Solver.SearchRes)
    (state : Solver.GameState) (beta : Int)
    (hchild : ∀ ns m a d,
      (∀ e ∈ (child ns m a d).log, Solver.GoodEvent e) ∧
      (child ns m a d).dom = (child ns m a d).log.foldl Solver.applyDomEvent d) :
    ∀ (actions : List (Solver.GameState → Solver.GameState)) (acc : Solver.LoopAcc)
      (dom₀ : Solver.Dom),
      (∀ e ∈ acc.log, Solver.GoodEvent e) →
      acc.dom = acc.log.foldl Solver.applyDomEvent dom₀ →
      (∀ e ∈ (Solver.maxLoop child state beta actions acc).log, Solver.GoodEvent e) ∧
      (Solver.maxLoop child state beta actions acc).dom =
        (Solver.maxLoop child state beta actions acc).log.foldl Solver.applyDomEvent dom₀ := by
  intro actions
  induction actions with
  | nil =>
    intro acc dom₀ ha hd
    simp only [Solver.maxLoop]
    exact ⟨ha, hd⟩
  | cons act rest ih =>
    intro acc dom₀ ha hd
    rw [Solver.maxLoop]
    by_cases hdone : acc.done = true
    · rw [if_pos hdone]
      exact ⟨ha, hd⟩
    · rw [if_neg hdone]
      refine ih _ dom₀ ?_ ?_
      · intro e he
        rcases List.mem_append.mp he with h | h
        · exact ha e h
        · exact (hchild (act state) acc.memo acc.bound acc.dom).1 e h
      · show (child (act state) acc.memo acc.bound acc.dom).dom = _
        rw [List.foldl_append, ← hd]
        exact (hchild (act state) acc.memo acc.bound acc.dom).2

/-- The minimizing loop preserves goodness and replayability of the ghost
log, given that every child call does. -/
theorem minLoop_props
    (child : Solver.GameState → Solver.Memo → Int → Solver.Dom → Solver.SearchRes)
    (state : Solver.GameState) (alpha : Int)
    (hchild : ∀ ns m b d,
      (∀ e ∈ (child ns m b d).log, Solver.GoodEvent e) ∧
      (child ns m b d).dom = (child ns m b d).log.foldl Solver.applyDomEvent d) :
    ∀ (actions : List (Solver.GameState → Solver.GameState)) (acc : Solver.LoopAcc)
      (dom₀ : Solver.Dom),
      (∀ e ∈ acc.log, Solver.GoodEvent e) →
      acc.dom = acc.log.foldl Solver.applyDomEvent dom₀ →
      (∀ e ∈ (Solver.minLoop child state alpha actions acc).log, Solver.GoodEvent e) ∧
      (Solver.minLoop child state alpha actions acc).dom =
        (Solver.minLoop child state alpha actions acc).log.foldl Solver.applyDomEvent dom₀ := by
  intro actions
  induction actions with
  | nil =>
    intro acc dom₀ ha hd
    simp only [Solver.minLoop]
    exact ⟨ha, hd⟩
  | cons act rest ih =>
    intro acc dom₀ ha hd
    rw [Solver.minLoop]
    by_cases hdone : acc.done = true
    · rw [if_pos hdone]
      exact ⟨ha, hd⟩
    · rw [if_neg hdone]
      refine ih _ dom₀ ?_ ?_
      · intro e he
        rcases List.mem_append.mp he with h | h
        · exact ha e h
        · exact (hchild (act state) acc.memo acc.bound acc.dom).1 e h
      · show (child (act state) acc.memo acc.bound acc.dom).dom = _
        rw [List.foldl_append, ← hd]
        exact (hchild (act state) acc.memo acc.bound acc.dom).2

/-- The minimizing loop only lowers its beta bound. -/
theorem minLoop_bound_le
    (child : Solver.GameState → Solver.Memo → Int → Solver.Dom → Solver.SearchRes)
    (state : Solver.GameState) (alpha : Int) :
    ∀ (actions : List (Solver.GameState → Solver.GameState)) (acc : Solver.LoopAcc),
      (Solver.minLoop child state alpha actions acc).bound ≤ acc.bound := by
  intro actions
  induction actions with
  | nil =>
    intro acc
    simp only [Solver.minLoop]
    exact le_refl _
  | cons act rest ih =>
    intro acc
    rw [Solver.minLoop]
    by_cases hdone : acc.done = true
    · rw [if_pos hdone]
    · rw [if_neg hdone]
      refine le_trans (ih _) ?_
      exact min_le_left _ _

/-- C2: at every point of a `minimax` search, a triple enters the dominance
table only from a store event classified exact — its value strictly inside
that node's original alpha/beta window — and the final dominance table is
exactly the input table extended by replaying the dominance-appending
events of the ghost log in order.  Lower and upper bound stores never touch
the dominance table. -/
theorem minimax_dominance_stores_only_exact (hooks : Solver.Hooks) (fuel : Nat)
    (s : Solver.GameState) (player : Nat) (memo : Solver.Memo) (alpha beta : Int)
    (dom : Solver.Dom) :
    (∀ e ∈ (Solver.minimax hooks fuel s player memo alpha beta dom).log,
      e.dom_stored = true →
        e.flag = "exact" ∧ e.orig_alpha < e.value ∧ e.value < e.orig_beta) ∧
    (Solver.minimax hooks fuel s player memo alpha beta dom).dom =
      (Solver.minimax hooks fuel s player memo alpha beta dom).log.foldl
        Solver.applyDomEvent dom := by
  induction fuel generalizing s player memo alpha beta dom with
  | zero =>
    simp only [Solver.minimax]
    split
    · exact ⟨by simp, rfl⟩
    · exact ⟨by simp, rfl⟩
  | succ fuel ih =>
    simp only [Solver.minimax]
    split
    · exact ⟨by simp, rfl⟩
    · split
      · exact ⟨by simp, rfl⟩
      · split
        · exact ⟨by simp, rfl⟩
        · split
          · exact autoStore_props _ _ _ _ _ _ _ _ (ih _ _ _ _ _ _).1 (ih _ _ _ _ _ _).2
          · split
            · exact autoStore_props _ _ _ _ _ _ _ _ (ih _ _ _ _ _ _).1 (ih _ _ _ _ _ _).2
            · split
              · split
                · exact autoStore_props _ _ _ _ _ _ _ _ (ih _ _ _ _ _ _).1 (ih _ _ _ _ _ _).2
                · split
                  · exact autoStore_props _ _ _ _ _ _ _ _ (ih _ _ _ _ _ _).1 (ih _ _ _ _ _ _).2
                  · split
                    · exact autoStore_props _ _ _ _ _ _ _ _ (ih _ _ _ _ _ _).1 (ih _ _ _ _ _ _).2
                    · exact autoStore_props _ _ _ _ ⟨0, memo, dom, []⟩ _ _ _ (by simp) rfl
              · split
                · split
                  · obtain ⟨hl1, hl2⟩ := maxLoop_props
                      (fun ns m a d => Solver.minimax hooks fuel ns player m a beta d)
                      s beta (fun ns m a d => ih ns player m a beta d)
                      (Solver.get_available_actions hooks s)
                      ⟨-2, alpha, memo, dom, [], false⟩ dom (by simp) rfl
                    exact classifyStore_props _ _ _ _ _ _ _ _ _ _ _ dom (le_refl beta) hl1 hl2
                  · obtain ⟨hl1, hl2⟩ := minLoop_props
                      (fun ns m b d => Solver.minimax hooks fuel ns player m alpha b d)
                      s alpha (fun ns m b d => ih ns player m alpha b d)
                      (Solver.get_available_actions hooks s)
                      ⟨2, beta, memo, dom, [], false⟩ dom (by simp) rfl
                    exact classifyStore_props _ _ _ _ _ _ _ _ _ _ _ dom
                      (minLoop_bound_le
                        (fun ns m b d => Solver.minimax hooks fuel ns player m alpha b d)
                        s alpha (Solver.get_available_actions hooks s)
                        ⟨2, beta, memo, dom, [], false⟩)
                      hl1 hl2
                · split
                  · obtain ⟨hl1, hl2⟩ := maxLoop_props
                      (fun ns m a d => Solver.minimax hooks fuel ns player m a beta d)
                      s beta (fun ns m a d => ih ns player m a beta d)
                      (Solver.get_available_actions hooks s)
                      ⟨-2, alpha, memo, dom, [], false⟩ dom (by simp) rfl
                    exact classifyStore_props _ _ _ _ _ _ _ _ _ _ _ dom (le_refl beta) hl1 hl2
                  · obtain ⟨hl1, hl2⟩ := minLoop_props
                      (fun ns m b d => Solver.minimax hooks fuel ns player m alpha b d)
                      s alpha (fun ns m b d => ih ns player m alpha b d)
                      (Solver.get_available_actions hooks s)
                      ⟨2, beta, memo, dom, [], false⟩ dom (by simp) rfl
                    exact classifyStore_props _ _ _ _ _ _ _ _ _ _ _ dom
                      (minLoop_bound_le
                        (fun ns m b d => Solver.minimax hooks fuel ns player m alpha b d)
                        s alpha (Solver.get_available_actions hooks s)
                        ⟨2, beta, memo, dom, [], false⟩)
                      hl1 hl2

/-- Witness for C2: a maximizing node whose best score 0 lies strictly
inside the full window stores exact and appends one dominance triple; the
final table replays from the ghost log. -/
theorem minimax_dominance_stores_only_exact_witness :
    (Solver.minimax domStoreHooks 5 domStoreState 0 domStoreMemo (-2) 2 []).dom =
      (Solver.minimax domStoreHooks 5 domStoreState 0 domStoreMemo (-2) 2 []).log.foldl
        Solver.applyDomEvent [] ∧
    (Solver.minimax domStoreHooks 5 domStoreState 0 domStoreMemo (-2) 2 []).dom =
      [((Solver.board_signature domStoreState, "main1", 0), [(20, 20, 0)])] :=
  ⟨(minimax_dominance_stores_only_exact domStoreHooks 5 domStoreState 0
      domStoreMemo (-2) 2 []).2,
    by decide⟩

end ThreeCB
